import Mathlib

/-!
Verification of the signage wind-loading calculators (BS EN 1991-1-4 / SCI P394
implementation): a shallow embedding of `wind_calculator.py`,
`post_mounted_calculator.py` and `projecting_sign_calculator.py` over the real
numbers, together with theorems settling the specification's claims.

Python floats are modelled as real numbers; a Python call that raises
(division by zero) is modelled as `Option.none`.  Warnings are identified by
kind: the Python code appends formatted strings, whose formatting is
irrelevant to the claims, so each distinct `self.warnings.append(...)` site is
represented by one constructor of `Warning`.
-/

set_option maxHeartbeats 1000000

namespace StructuralDesign

noncomputable section

/-- One constructor per distinct warning-appending site in the source. -/
inductive Warning
  /-- wind_calculator.py line 85: "Non-directional approach used (c_dir = 1.0, conservative)" -/
  | nonDirectional
  /-- wind_calculator.py line 124: "Orography not considered (c_o = 1.0). ..." -/
  | orography
  /-- wind_calculator.py line 700: "h/d = ... > 5. Using c_f for h/d=5 (conservative)." -/
  | hdOver5Clamped
  /-- post_mounted_calculator.py line 239: "h/d = ... > 5. Using conservative c_f." -/
  | freestandingHdOver5
  /-- post_mounted_calculator.py line 129: "Post diameter not specified - post wind force neglected" -/
  | postDiameterMissing
  /-- projecting_sign_calculator.py line 314: "Single bracket: no moment couple resistance" -/
  | singleBracket
deriving DecidableEq, Repr

/-- Exposure zone returned by `calculate_exposure_factor` ('A', 'B' or 'C'). -/
inductive Zone
  | A
  | B
  | C
deriving DecidableEq, Repr

/-- Terrain type strings accepted by the wall/post engines
(spec invariant: terrain classification is one of sea, country, town). -/
inductive Terrain
  | sea
  | country
  | town
deriving DecidableEq, Repr

/-- A utilization check status string: 'PASS' or 'FAIL'. -/
inductive Status
  | PASS
  | FAIL
deriving DecidableEq, Repr

/-- Post section type: 'circular' or 'square'. -/
inductive SectionType
  | circular
  | square
deriving DecidableEq, Repr

/-- Post material: 'steel', 'aluminium' or 'timber'. -/
inductive Material
  | steel
  | aluminium
  | timber
deriving DecidableEq, Repr

/-! ## Wall-mounted engine: `wind_calculator.py`, class WindLoadCalculator -/

/-- `calculate_altitude_factor` (wind_calculator.py lines 390-413):
z_s = 0.6*height; if z_s >= 10 then c_alt = 1 + 0.001*altitude*(10/z_s)^0.2
else c_alt = 1 + 0.001*altitude. -/
def calculate_altitude_factor (altitude height : ℝ) : ℝ :=
  let z_s := 0.6 * height
  if z_s ≥ 10 then 1 + 0.001 * altitude * (10 / z_s) ^ (0.2 : ℝ)
  else 1 + 0.001 * altitude

/-- `calculate_exposure_factor` (wind_calculator.py lines 415-484).
Returns (c_e, zone). -/
def calculate_exposure_factor (height displacement distance_to_shore : ℝ)
    (terrain_type : Terrain) : ℝ × Zone :=
  let z_eff := max (height - displacement) 2.0
  let zone : Zone :=
    if terrain_type = Terrain.sea ∨ distance_to_shore ≤ 0.1 then Zone.A
    else if terrain_type = Terrain.town then Zone.C
    else Zone.B
  let c_e : ℝ :=
    match zone with
    | Zone.A => if z_eff ≤ 10 then 2.5 else 2.5 + 0.20 * Real.log (z_eff / 10)
    | Zone.C => if z_eff ≤ 10 then 2.5 else 2.5 + 0.28 * Real.log (z_eff / 10)
    | Zone.B => if z_eff ≤ 10 then 2.1 else 2.1 + 0.22 * Real.log (z_eff / 10)
  let c_e : ℝ :=
    if zone = Zone.B ∧ distance_to_shore < 100 then
      let c_e_A := if z_eff ≤ 10 then (2.5 : ℝ) else 2.5 + 0.20 * Real.log (z_eff / 10)
      let c_e_B := if z_eff ≤ 10 then (2.1 : ℝ) else 2.1 + 0.22 * Real.log (z_eff / 10)
      let factor := min (distance_to_shore / 100) 1.0
      c_e_A + factor * (c_e_B - c_e_A)
    else c_e
  (c_e, zone)

/-- `calculate_town_correction` (wind_calculator.py lines 486-517).
The `height` argument is accepted and ignored, as in the source. -/
def calculate_town_correction (distance_into_town height : ℝ) : ℝ :=
  if distance_into_town ≤ 0 then 1.0
  else if distance_into_town ≥ 4 then 1.08
  else 1.0 + 0.02 * distance_into_town

/-- `calculate_peak_velocity_pressure` (wind_calculator.py lines 519-544):
q_p = 0.613 * (v_map*c_alt*c_dir)^2 * c_e * c_e_T. -/
def calculate_peak_velocity_pressure (v_map c_alt c_dir c_e c_e_T : ℝ) : ℝ :=
  0.613 * (v_map * c_alt * c_dir) ^ 2 * c_e * c_e_T

/-- `calculate_size_factor` (wind_calculator.py lines 546-631). -/
def calculate_size_factor (width height z_eff : ℝ) (zone : Zone) : ℝ :=
  let b_plus_h := width + height
  match zone with
  | Zone.A =>
    if b_plus_h ≤ 5 then 1.0
    else if b_plus_h ≥ 300 then
      if z_eff ≤ 6 then 0.81
      else if z_eff ≥ 200 then 0.88
      else 0.81 + (0.88 - 0.81) * Real.log (z_eff / 6) / Real.log (200 / 6)
    else
      let c_s_300 : ℝ :=
        if z_eff ≤ 6 then 0.81
        else 0.81 + (0.88 - 0.81) * Real.log (z_eff / 6) / Real.log (200 / 6)
      1.0 + (c_s_300 - 1.0) * Real.log (b_plus_h / 5) / Real.log (300 / 5)
  | Zone.C =>
    if b_plus_h ≤ 5 then 1.0
    else if b_plus_h ≥ 300 then
      if z_eff ≤ 6 then 0.75
      else if z_eff ≥ 200 then 0.85
      else 0.75 + (0.85 - 0.75) * Real.log (z_eff / 6) / Real.log (200 / 6)
    else
      let c_s_300 : ℝ :=
        if z_eff ≤ 6 then 0.75
        else 0.75 + (0.85 - 0.75) * Real.log (z_eff / 6) / Real.log (200 / 6)
      1.0 + (c_s_300 - 1.0) * Real.log (b_plus_h / 5) / Real.log (300 / 5)
  | Zone.B =>
    if b_plus_h ≤ 5 then 1.0
    else if b_plus_h ≥ 300 then
      if z_eff ≤ 6 then 0.78
      else if z_eff ≥ 200 then 0.87
      else 0.78 + (0.87 - 0.78) * Real.log (z_eff / 6) / Real.log (200 / 6)
    else
      let c_s_300 : ℝ :=
        if z_eff ≤ 6 then 0.78
        else 0.78 + (0.87 - 0.78) * Real.log (z_eff / 6) / Real.log (200 / 6)
      1.0 + (c_s_300 - 1.0) * Real.log (b_plus_h / 5) / Real.log (300 / 5)

/-- `calculate_dynamic_factor` (wind_calculator.py lines 633-681), for the
damping-0.08 table {0.25: 1.02, 0.5: 1.03, 1: 1.06, 2: 1.10, 4: 1.17, 10: 1.24};
the Python loop linearly interpolates on the first bracketing interval, which
this if-chain reproduces. -/
def calculate_dynamic_factor (height width : ℝ) : ℝ :=
  if height ≤ 15 then 1.0
  else
    let h_over_b := height / width
    if h_over_b ≤ 0.25 then 1.02
    else if h_over_b ≥ 10 then 1.24
    else if h_over_b ≤ 0.5 then 1.02 + (1.03 - 1.02) * (h_over_b - 0.25) / (0.5 - 0.25)
    else if h_over_b ≤ 1 then 1.03 + (1.06 - 1.03) * (h_over_b - 0.5) / (1 - 0.5)
    else if h_over_b ≤ 2 then 1.06 + (1.10 - 1.06) * (h_over_b - 1) / (2 - 1)
    else if h_over_b ≤ 4 then 1.10 + (1.17 - 1.10) * (h_over_b - 2) / (4 - 2)
    else 1.17 + (1.24 - 1.17) * (h_over_b - 4) / (10 - 4)

/-- `calculate_force_coefficient` (wind_calculator.py lines 683-713), paired
with the warnings it appends.  The h/d > 5 case clamps h/d to 5 and warns. -/
def calculate_force_coefficient (height depth : ℝ) : ℝ × List Warning :=
  let h_over_d := height / depth
  let ws : List Warning := if h_over_d > 5 then [Warning.hdOver5Clamped] else []
  let h_over_d := if h_over_d > 5 then (5.0 : ℝ) else h_over_d
  let c_f : ℝ :=
    if 0.25 ≤ h_over_d ∧ h_over_d ≤ 1 then 0.935 + 0.1839 * Real.log h_over_d
    else if 1 < h_over_d ∧ h_over_d ≤ 5 then
      (0.8125 + 0.0375 * h_over_d) * (1.1 + 0.1243 * Real.log h_over_d)
    else if h_over_d < 0.25 then 0.68
    else 1.0
  (c_f, ws)

/-- The source's `calculate_force_coefficient` evaluates `height / depth` with
no zero guard (wind_calculator.py line 697); a Python call with depth = 0
raises ZeroDivisionError.  The raising call is modelled as `none`. -/
def calculate_force_coefficient_run (height depth : ℝ) : Option (ℝ × List Warning) :=
  if depth = 0 then none else some (calculate_force_coefficient height depth)

/-- `calculate_wind_force` (wind_calculator.py lines 715-737):
F_w = q_p * c_s * c_d * c_f * area, in newtons. -/
def calculate_wind_force (q_p c_s c_d c_f area : ℝ) : ℝ :=
  q_p * c_s * c_d * c_f * area

/-- Input record for the wall-mounted engine.  `v_map` is modelled as
explicitly supplied (every claim under verification supplies it, bypassing the
postcode lookup), and `distance_to_shore` as already parsed to a number. -/
structure WallInputs where
  sign_width : ℝ
  sign_height : ℝ
  sign_depth : ℝ
  building_height : ℝ
  site_altitude : ℝ
  v_map : ℝ
  distance_to_shore : ℝ
  terrain_type : Terrain
  distance_into_town : ℝ

/-- Result record of `WindLoadCalculator.calculate_wind_loading`: the numeric
fields of the Python results dictionary used by the claims (stage-reference
strings, metadata and the heuristic adequacy assessment, which never touch the
warning log, are not modelled). -/
structure WallResults where
  v_map : ℝ
  c_alt : ℝ
  c_season : ℝ
  c_dir : ℝ
  h_dis : ℝ
  c_e : ℝ
  zone : Zone
  c_e_T : ℝ
  q_p : ℝ
  c_o : ℝ
  z_eff : ℝ
  c_s : ℝ
  c_d : ℝ
  A_ref : ℝ
  c_f : ℝ
  force_N : ℝ
  force_kN : ℝ
  lever_arm : ℝ
  moment_kNm : ℝ
  design_wind_speed : ℝ
  warnings : List Warning

/-- `WindLoadCalculator.calculate_wind_loading` (wind_calculator.py lines
28-177).  The method begins with `self.warnings = []` (line 49); the returned
`warnings` list is exactly what the call itself appended, in append order:
the non-directional warning (line 85), the orography warning (line 124), then
any force-coefficient warning (stage 21). -/
def WindLoadCalculator.calculate_wind_loading (inputs : WallInputs) : WallResults :=
  let v_map := inputs.v_map
  let c_alt := calculate_altitude_factor inputs.site_altitude inputs.building_height
  let c_dir : ℝ := 1.0
  let h_dis : ℝ := 0.0
  let ec := calculate_exposure_factor inputs.building_height h_dis
    inputs.distance_to_shore inputs.terrain_type
  let c_e := ec.1
  let zone := ec.2
  let c_e_T : ℝ :=
    if inputs.terrain_type = Terrain.town ∧ inputs.distance_into_town > 0 then
      calculate_town_correction inputs.distance_into_town inputs.building_height
    else 1.0
  let q_p := calculate_peak_velocity_pressure v_map c_alt c_dir c_e c_e_T
  let z_eff := inputs.building_height - h_dis
  let c_s := calculate_size_factor inputs.sign_width inputs.sign_height z_eff zone
  let c_d := calculate_dynamic_factor inputs.building_height inputs.sign_width
  let A_ref := inputs.sign_width * inputs.sign_height
  let cfw := calculate_force_coefficient inputs.sign_height inputs.sign_depth
  let F_w := calculate_wind_force q_p c_s c_d cfw.1 A_ref
  let lever_arm := inputs.building_height - inputs.sign_height / 2
  { v_map := v_map
    c_alt := c_alt
    c_season := 1.0
    c_dir := c_dir
    h_dis := h_dis
    c_e := c_e
    zone := zone
    c_e_T := c_e_T
    q_p := q_p
    c_o := 1.0
    z_eff := z_eff
    c_s := c_s
    c_d := c_d
    A_ref := A_ref
    c_f := cfw.1
    force_N := F_w
    force_kN := F_w / 1000
    lever_arm := lever_arm
    moment_kNm := F_w * lever_arm / 1000
    design_wind_speed := v_map * c_alt * c_dir
    warnings := [Warning.nonDirectional, Warning.orography] ++ cfw.2 }

/-! ## Post-mounted engine: `post_mounted_calculator.py`, class PostMountedCalculator -/

/-- `calculate_force_coefficient_freestanding` (post_mounted_calculator.py
lines 211-241), paired with the warnings it appends.  Unlike the wall-mounted
function, h/d is guarded: depth = 0 yields the sentinel ratio 999, which lands
in the warning branch.  The `width` argument is accepted and ignored, as in
the source. -/
def calculate_force_coefficient_freestanding (height depth width : ℝ) : ℝ × List Warning :=
  let h_over_d : ℝ := if depth > 0 then height / depth else 999
  if 0.25 ≤ h_over_d ∧ h_over_d ≤ 1 then
    ((0.935 + 0.1839 * Real.log h_over_d) * 1.1, [])
  else if 1 < h_over_d ∧ h_over_d ≤ 5 then
    ((0.8125 + 0.0375 * h_over_d) * (1.1 + 0.1243 * Real.log h_over_d) * 1.1, [])
  else if h_over_d < 0.25 then (0.68 * 1.1, [])
  else (1.0 * 1.1, [Warning.freestandingHdOver5])

/-- Result record of `calculate_post_stresses`. -/
structure PostCheck where
  I : ℝ
  W_el : ℝ
  sigma_Ed : ℝ
  sigma_Rd : ℝ
  eta_bending : ℝ
  tau_Ed : ℝ
  tau_Rd : ℝ
  eta_shear : ℝ
  bending_status : Status
  shear_status : Status

/-- `calculate_post_stresses` (post_mounted_calculator.py lines 243-334):
section properties for square/circular, solid (timber) or hollow sections,
material-dependent design resistances, utilization ratios with the source's
sentinel fallbacks, and PASS/FAIL statuses. -/
def calculate_post_stresses (M F size_out t f_y : ℝ) (section_type : SectionType)
    (material : Material) : PostCheck :=
  let IWA : ℝ × ℝ × ℝ :=
    match section_type with
    | SectionType.square =>
      let b_out := size_out
      if material = Material.timber then
        (b_out ^ 4 / 12, b_out ^ 3 / 6, b_out ^ 2)
      else
        let b_in := b_out - 2 * t
        let I := (b_out ^ 4 - b_in ^ 4) / 12
        (I, I / (b_out / 2), b_out ^ 2 - b_in ^ 2)
    | SectionType.circular =>
      let D_out := size_out
      if material = Material.timber then
        (Real.pi * D_out ^ 4 / 64, Real.pi * D_out ^ 3 / 32, Real.pi * D_out ^ 2 / 4)
      else
        let D_in := D_out - 2 * t
        let I := Real.pi * (D_out ^ 4 - D_in ^ 4) / 64
        (I, I / (D_out / 2), Real.pi * (D_out ^ 2 - D_in ^ 2) / 4)
  let I := IWA.1
  let W_el := IWA.2.1
  let A := IWA.2.2
  let M_Nmm := M * 1e6
  let sigma_Ed : ℝ := if W_el > 0 then M_Nmm / W_el else 999999
  let RR : ℝ × ℝ :=
    match material with
    | Material.steel => (f_y / 1.0, f_y / Real.sqrt 3 / 1.0)
    | Material.aluminium => (f_y / 1.1, f_y / Real.sqrt 3 / 1.1)
    | Material.timber => (f_y * 0.9 / 1.3, 4.0 * 0.9 / 1.3)
  let sigma_Rd := RR.1
  let tau_Rd := RR.2
  let eta_bending : ℝ := if sigma_Rd > 0 then sigma_Ed / sigma_Rd else 999
  let tau_Ed : ℝ := if A > 0 then F * 1000 / A else 999999
  let eta_shear : ℝ := if tau_Rd > 0 then tau_Ed / tau_Rd else 999
  { I := I
    W_el := W_el
    sigma_Ed := sigma_Ed
    sigma_Rd := sigma_Rd
    eta_bending := eta_bending
    tau_Ed := tau_Ed
    tau_Rd := tau_Rd
    eta_shear := eta_shear
    bending_status := if eta_bending ≤ 1.0 then Status.PASS else Status.FAIL
    shear_status := if eta_shear ≤ 1.0 then Status.PASS else Status.FAIL }

/-- Input record for the post-mounted engine.  The source reads optional keys
with defaults; every run under verification supplies them, so they are
modelled as present fields (`post_diameter` in mm, 0 meaning "not specified"
for the post self-force branch, which tests `post_diameter / 1000 > 0`). -/
structure PostInputs where
  sign_width : ℝ
  sign_height : ℝ
  sign_depth : ℝ
  sign_base_height : ℝ
  post_height : ℝ
  site_altitude : ℝ
  v_map : ℝ
  distance_to_shore : ℝ
  terrain_type : Terrain
  distance_into_town : ℝ
  post_diameter : ℝ
  post_thickness : ℝ
  post_section_type : SectionType
  post_material : Material
  post_steel_grade : ℝ

/-- Result record of `PostMountedCalculator.calculate_wind_loading` (the
fields used by the claims; inherited base-result fields other than the
overridden ones, the foundation heuristic and overall status are not
modelled). -/
structure PostResults where
  q_p : ℝ
  c_s : ℝ
  c_d : ℝ
  c_f : ℝ
  A_ref : ℝ
  z_centroid : ℝ
  F_w_sign : ℝ
  F_w_post : ℝ
  force_N : ℝ
  force_kN : ℝ
  M_sign : ℝ
  M_post : ℝ
  M_total : ℝ
  moment_kNm : ℝ
  post_check : PostCheck
  warnings : List Warning

/-- `PostMountedCalculator.calculate_wind_loading` (post_mounted_calculator.py
lines 34-209).  The method sets `self.warnings = []` (line 61), then calls the
inherited wall-mounted pipeline, which itself begins with `self.warnings = []`
(wind_calculator.py line 49).  Consequently the instance's log after the base
call holds exactly the base call's warnings; the free-standing force
coefficient may append to it; and when `post_diameter > 0` the second
inherited call (for the post self-force, line 123) resets the log again, so
the returned `warnings` list is that of the last nested call alone. -/
def PostMountedCalculator.calculate_wind_loading (inputs : PostInputs) : PostResults :=
  let b := inputs.sign_width
  let h := inputs.sign_height
  let d := inputs.sign_depth
  let z_centroid := inputs.sign_base_height + h / 2
  let wind_inputs : WallInputs :=
    { sign_width := b
      sign_height := h
      sign_depth := d
      building_height := z_centroid
      site_altitude := inputs.site_altitude
      v_map := inputs.v_map
      distance_to_shore := inputs.distance_to_shore
      terrain_type := inputs.terrain_type
      distance_into_town := inputs.distance_into_town }
  let base_results := WindLoadCalculator.calculate_wind_loading wind_inputs
  let q_p := base_results.q_p
  let c_s := base_results.c_s
  let c_d := base_results.c_d
  let cfw := calculate_force_coefficient_freestanding h d b
  let c_f := cfw.1
  let warnings_mid := base_results.warnings ++ cfw.2
  let A_ref := b * h
  let F_w_sign := q_p * c_s * c_d * c_f * A_ref / 1000
  let post_size := inputs.post_diameter / 1000
  let post_height := inputs.post_height
  let FP : ℝ × List Warning :=
    if post_size > 0 then
      let c_f_post : ℝ :=
        match inputs.post_section_type with
        | SectionType.square => 2.0
        | SectionType.circular => 0.7
      let A_post := post_size * post_height
      let post_results := WindLoadCalculator.calculate_wind_loading
        { wind_inputs with building_height := post_height / 2 }
      (post_results.q_p * c_f_post * A_post / 1000, post_results.warnings)
    else (0, warnings_mid ++ [Warning.postDiameterMissing])
  let F_w_post := FP.1
  let F_w_total := F_w_sign + F_w_post
  let M_sign := F_w_sign * z_centroid
  let M_post : ℝ := if F_w_post > 0 then F_w_post * (post_height / 2) else 0
  let M_total := M_sign + M_post
  let post_check := calculate_post_stresses M_total F_w_total inputs.post_diameter
    inputs.post_thickness inputs.post_steel_grade inputs.post_section_type
    inputs.post_material
  { q_p := q_p
    c_s := c_s
    c_d := c_d
    c_f := c_f
    A_ref := A_ref
    z_centroid := z_centroid
    F_w_sign := F_w_sign
    F_w_post := F_w_post
    force_N := F_w_total * 1000
    force_kN := F_w_total
    M_sign := M_sign
    M_post := M_post
    M_total := M_total
    moment_kNm := M_total
    post_check := post_check
    warnings := FP.2 }

/-! ## Projecting-sign engine: `projecting_sign_calculator.py`, class ProjectingSignCalculator -/

/-- Terrain category keys of `TERRAIN_PARAMS` ('0', 'II', 'III', 'IV'). -/
inductive TerrainCat
  | cat0
  | catII
  | catIII
  | catIV
deriving DecidableEq, Repr

/-- `TERRAIN_PARAMS` (projecting_sign_calculator.py lines 36-41):
(z_0, z_min, k_r) per terrain category. -/
def TERRAIN_PARAMS : TerrainCat → ℝ × ℝ × ℝ
  | TerrainCat.cat0 => (0.003, 1, 0.17)
  | TerrainCat.catII => (0.05, 2, 0.19)
  | TerrainCat.catIII => (0.3, 5, 0.22)
  | TerrainCat.catIV => (1.0, 10, 0.24)

/-- `calculate_basic_wind_velocity` (lines 220-233): v_b = v_b_0*c_dir*c_season. -/
def calculate_basic_wind_velocity (v_b_0 c_dir c_season : ℝ) : ℝ :=
  v_b_0 * c_dir * c_season

/-- `calculate_roughness_factor` (lines 235-248): c_r = k_r*ln(z/z_0). -/
def calculate_roughness_factor (z z_0 k_r : ℝ) : ℝ :=
  k_r * Real.log (z / z_0)

/-- `calculate_turbulence_intensity` (lines 250-265): I_v = k_I/(c_0*ln(z/z_0)). -/
def calculate_turbulence_intensity (z z_0 k_I c_0 : ℝ) : ℝ :=
  k_I / (c_0 * Real.log (z / z_0))

/-- `calculate_peak_pressure` (lines 267-280):
q_p = 0.5*1.25*v_m^2*(1+7*I_v) in Pa, returned divided by 1000 (kN/m²). -/
def calculate_peak_pressure (v_m I_v : ℝ) : ℝ :=
  0.5 * 1.25 * v_m ^ 2 * (1 + 7 * I_v) / 1000

/-- Result record of `calculate_bracket_forces`. -/
structure BracketForces where
  V_per_bracket : ℝ
  M_wall : ℝ
  M_per_bracket : ℝ
  N_vertical : ℝ
  N_moment : ℝ
  N_tension_max : ℝ

/-- `calculate_bracket_forces` (lines 282-326), paired with the warnings it
appends (a single bracket gives no moment couple and warns). -/
def calculate_bracket_forces (F_w_Ed e : ℝ) (n_brackets : ℕ) (s G_Ed : ℝ) :
    BracketForces × List Warning :=
  let V_per_bracket := F_w_Ed / (n_brackets : ℝ)
  let M_wall := F_w_Ed * e
  let M_per_bracket := V_per_bracket * e
  let N_vertical := G_Ed / (n_brackets : ℝ)
  let NW : ℝ × List Warning :=
    if 2 ≤ n_brackets then (M_wall / s, []) else (0, [Warning.singleBracket])
  ({ V_per_bracket := V_per_bracket
     M_wall := M_wall
     M_per_bracket := M_per_bracket
     N_vertical := N_vertical
     N_moment := NW.1
     N_tension_max := NW.1 + N_vertical }, NW.2)

/-- Result record of `calculate_anchor_utilization`. -/
structure AnchorCheck where
  N_Ed : ℝ
  V_Ed : ℝ
  N_Rd : ℝ
  V_Rd : ℝ
  eta_tension : ℝ
  eta_shear : ℝ
  eta_combined : ℝ
  tension_status : Status
  shear_status : Status
  combined_status : Status

/-- `calculate_anchor_utilization` (lines 328-374): per-fixing demands, design
resistances, utilization ratios (sentinel 999 on a non-positive resistance)
and PASS/FAIL statuses; combined interaction is the linear sum. -/
def calculate_anchor_utilization (V_per_bracket M_per_bracket N_vertical : ℝ)
    (n_fix : ℕ) (p_v N_Rk V_Rk gamma_M : ℝ) : AnchorCheck :=
  let V_Ed := V_per_bracket / (n_fix : ℝ)
  let N_Ed := M_per_bracket / (p_v * ((n_fix : ℝ) / 2)) + N_vertical / (n_fix : ℝ)
  let N_Rd := N_Rk / gamma_M
  let V_Rd := V_Rk / gamma_M
  let eta_tension : ℝ := if N_Rd > 0 then N_Ed / N_Rd else 999
  let eta_shear : ℝ := if V_Rd > 0 then V_Ed / V_Rd else 999
  let eta_combined := eta_tension + eta_shear
  { N_Ed := N_Ed
    V_Ed := V_Ed
    N_Rd := N_Rd
    V_Rd := V_Rd
    eta_tension := eta_tension
    eta_shear := eta_shear
    eta_combined := eta_combined
    tension_status := if eta_tension ≤ 1.0 then Status.PASS else Status.FAIL
    shear_status := if eta_shear ≤ 1.0 then Status.PASS else Status.FAIL
    combined_status := if eta_combined ≤ 1.0 then Status.PASS else Status.FAIL }

/-- Result record of `calculate_bracket_stresses`. -/
structure BracketCheck where
  I : ℝ
  W_el : ℝ
  M_Ed : ℝ
  sigma_Ed : ℝ
  sigma_Rd : ℝ
  eta_bending : ℝ
  tau_Ed : ℝ
  tau_Rd : ℝ
  eta_shear : ℝ
  bending_status : Status
  shear_status : Status

/-- `calculate_bracket_stresses` (lines 376-443): rectangular hollow section
properties, bending and shear utilization with sentinel fallbacks, and
PASS/FAIL statuses. -/
def calculate_bracket_stresses (V_per_bracket L b_out h_out t f_y : ℝ) : BracketCheck :=
  let b_in := b_out - 2 * t
  let h_in := h_out - 2 * t
  let I := (b_out * h_out ^ 3 - b_in * h_in ^ 3) / 12
  let W_el := 2 * I / h_out
  let M_Ed := V_per_bracket * L * 1e6
  let sigma_Ed : ℝ := if W_el > 0 then M_Ed / W_el else 999999
  let sigma_Rd := f_y / 1.0
  let eta_bending : ℝ := if sigma_Rd > 0 then sigma_Ed / sigma_Rd else 999
  let A_v := 2 * h_out * t
  let tau_Ed : ℝ := if A_v > 0 then V_per_bracket * 1000 / A_v else 999999
  let tau_Rd := f_y / Real.sqrt 3 / 1.0
  let eta_shear : ℝ := if tau_Rd > 0 then tau_Ed / tau_Rd else 999
  { I := I
    W_el := W_el
    M_Ed := M_Ed / 1e6
    sigma_Ed := sigma_Ed
    sigma_Rd := sigma_Rd
    eta_bending := eta_bending
    tau_Ed := tau_Ed
    tau_Rd := tau_Rd
    eta_shear := eta_shear
    bending_status := if eta_bending ≤ 1.0 then Status.PASS else Status.FAIL
    shear_status := if eta_shear ≤ 1.0 then Status.PASS else Status.FAIL }

/-- Result record of `calculate_deflection`. -/
structure DeflectionCheck where
  delta : ℝ
  delta_limit : ℝ
  eta_deflection : ℝ
  deflection_status : Status

/-- `calculate_deflection` (lines 445-480): cantilever tip deflection against
the limit min(L/150, 20 mm), with PASS/FAIL status. -/
def calculate_deflection (F_w_k : ℝ) (n_brackets : ℕ) (L E I : ℝ) : DeflectionCheck :=
  let F_SLS := F_w_k / (n_brackets : ℝ) * 1000
  let L_mm := L * 1000
  let delta : ℝ := if I > 0 then F_SLS * L_mm ^ 3 / (3 * E * I) else 999999
  let delta_limit := min (L_mm / 150) 20
  let eta_deflection : ℝ := if delta_limit > 0 then delta / delta_limit else 999
  { delta := delta
    delta_limit := delta_limit
    eta_deflection := eta_deflection
    deflection_status := if eta_deflection ≤ 1.0 then Status.PASS else Status.FAIL }

/-- Input record for the projecting-sign engine (optional keys `c_dir` and
`c_season`, defaulted to 1.0 by the source, are modelled as present fields). -/
structure ProjInputs where
  sign_width : ℝ
  sign_height : ℝ
  projection : ℝ
  mounting_height : ℝ
  terrain_category : TerrainCat
  v_b_0 : ℝ
  c_dir : ℝ
  c_season : ℝ
  sign_weight : ℝ
  n_brackets : ℕ
  bracket_spacing : ℝ
  n_fixings_per_bracket : ℕ
  fixing_pitch_vertical : ℝ
  anchor_tension_capacity : ℝ
  anchor_shear_capacity : ℝ
  anchor_gamma_M : ℝ
  bracket_width : ℝ
  bracket_depth : ℝ
  bracket_thickness : ℝ
  bracket_steel_grade : ℝ

/-- Result record of `ProjectingSignCalculator.calculate_wind_loading` (the
fields used by the claims). -/
structure ProjResults where
  sign_area : ℝ
  v_b : ℝ
  z_eff : ℝ
  c_r : ℝ
  I_v : ℝ
  v_m : ℝ
  q_p : ℝ
  c_f : ℝ
  F_w_k : ℝ
  F_w_Ed : ℝ
  G_Ed : ℝ
  bracket_forces : BracketForces
  anchor_check : AnchorCheck
  bracket_check : BracketCheck
  deflection_check : DeflectionCheck
  warnings : List Warning

/-- `ProjectingSignCalculator.calculate_wind_loading`
(projecting_sign_calculator.py lines 54-218).  The method sets
`self.warnings = []` (line 84); the only appending site in the pipeline is the
single-bracket case of `calculate_bracket_forces`.  Constants: ρ = 1.25,
c_f = 2.0, γ_Q = 1.5, γ_G = 1.35, E = 210000. -/
def ProjectingSignCalculator.calculate_wind_loading (inputs : ProjInputs) : ProjResults :=
  let b := inputs.sign_width
  let h := inputs.sign_height
  let e := inputs.projection
  let params := TERRAIN_PARAMS inputs.terrain_category
  let z_0 := params.1
  let z_min := params.2.1
  let k_r := params.2.2
  let v_b := calculate_basic_wind_velocity inputs.v_b_0 inputs.c_dir inputs.c_season
  let z_eff := max inputs.mounting_height z_min
  let c_r := calculate_roughness_factor z_eff z_0 k_r
  let I_v := calculate_turbulence_intensity z_eff z_0 1.0 1.0
  let v_m := c_r * v_b
  let q_p := calculate_peak_pressure v_m I_v
  let A := b * h
  let c_f : ℝ := 2.0
  let F_w_k := c_f * q_p * A
  let G_Ed := 1.35 * inputs.sign_weight
  let F_w_Ed := 1.5 * F_w_k
  let bfw := calculate_bracket_forces F_w_Ed e inputs.n_brackets
    inputs.bracket_spacing G_Ed
  let anchor_check := calculate_anchor_utilization bfw.1.V_per_bracket
    bfw.1.M_per_bracket bfw.1.N_vertical inputs.n_fixings_per_bracket
    inputs.fixing_pitch_vertical inputs.anchor_tension_capacity
    inputs.anchor_shear_capacity inputs.anchor_gamma_M
  let bracket_check := calculate_bracket_stresses bfw.1.V_per_bracket e
    inputs.bracket_width inputs.bracket_depth inputs.bracket_thickness
    inputs.bracket_steel_grade
  let deflection_check := calculate_deflection F_w_k inputs.n_brackets e 210000
    bracket_check.I
  { sign_area := A
    v_b := v_b
    z_eff := z_eff
    c_r := c_r
    I_v := I_v
    v_m := v_m
    q_p := q_p
    c_f := c_f
    F_w_k := F_w_k
    F_w_Ed := F_w_Ed
    G_Ed := G_Ed
    bracket_forces := bfw.1
    anchor_check := anchor_check
    bracket_check := bracket_check
    deflection_check := deflection_check
    warnings := bfw.2 }

/-! ## Engine-instance call semantics

Each engine stores its warning log on the instance (`self.warnings`) and every
`calculate_wind_loading` begins by resetting it to the empty list
(wind_calculator.py line 49, post_mounted_calculator.py line 61,
projecting_sign_calculator.py line 84).  `run` models invoking the method on
an instance whose log currently holds `st`: the result ignores `st`, and the
instance's log afterwards is the returned warnings list. -/

/-- A call on a wall-mounted engine instance with current warning-log state `st`. -/
def WindLoadCalculator.run (st : List Warning) (inputs : WallInputs) :
    WallResults × List Warning :=
  let r := WindLoadCalculator.calculate_wind_loading inputs
  (r, r.warnings)

/-- A call on a post-mounted engine instance with current warning-log state `st`. -/
def PostMountedCalculator.run (st : List Warning) (inputs : PostInputs) :
    PostResults × List Warning :=
  let r := PostMountedCalculator.calculate_wind_loading inputs
  (r, r.warnings)

/-- A call on a projecting-sign engine instance with current warning-log state `st`. -/
def ProjectingSignCalculator.run (st : List Warning) (inputs : ProjInputs) :
    ProjResults × List Warning :=
  let r := ProjectingSignCalculator.calculate_wind_loading inputs
  (r, r.warnings)

/-! ## Verified rational bounds on the logarithms used by the golden scenarios

All logarithm arguments occurring in the two golden runs factor over {2, 3, 5,
29/27, 47/45}; each atomic logarithm is bounded through partial sums of the
exponential series (`Real.exp_bound'`, `Real.sum_le_exp_of_nonneg`), and the
needed compound logarithms follow by linear arithmetic. -/

lemma log_32_lb : (0.4054650 : ℝ) < Real.log (3/2) := by
  rw [Real.lt_log_iff_exp_lt (by norm_num : (0:ℝ) < 3/2)]
  have h := Real.exp_bound' (by norm_num : (0:ℝ) ≤ 0.4054650)
    (by norm_num : (0.4054650:ℝ) ≤ 1) (by norm_num : 0 < 7)
  refine lt_of_le_of_lt h ?_
  rw [Finset.sum_range_succ, Finset.sum_range_succ, Finset.sum_range_succ,
    Finset.sum_range_succ, Finset.sum_range_succ, Finset.sum_range_succ,
    Finset.sum_range_succ, Finset.sum_range_zero]
  norm_num [Nat.factorial]

lemma log_32_ub : Real.log (3/2) < (0.4054652 : ℝ) := by
  rw [Real.log_lt_iff_lt_exp (by norm_num : (0:ℝ) < 3/2)]
  refine lt_of_lt_of_le ?_ (Real.sum_le_exp_of_nonneg (by norm_num) 8)
  rw [Finset.sum_range_succ, Finset.sum_range_succ, Finset.sum_range_succ,
    Finset.sum_range_succ, Finset.sum_range_succ, Finset.sum_range_succ,
    Finset.sum_range_succ, Finset.sum_range_succ, Finset.sum_range_zero]
  norm_num [Nat.factorial]

lemma log_54_lb : (0.2231434 : ℝ) < Real.log (5/4) := by
  rw [Real.lt_log_iff_exp_lt (by norm_num : (0:ℝ) < 5/4)]
  have h := Real.exp_bound' (by norm_num : (0:ℝ) ≤ 0.2231434)
    (by norm_num : (0.2231434:ℝ) ≤ 1) (by norm_num : 0 < 6)
  refine lt_of_le_of_lt h ?_
  rw [Finset.sum_range_succ, Finset.sum_range_succ, Finset.sum_range_succ,
    Finset.sum_range_succ, Finset.sum_range_succ, Finset.sum_range_succ,
    Finset.sum_range_zero]
  norm_num [Nat.factorial]

lemma log_54_ub : Real.log (5/4) < (0.2231436 : ℝ) := by
  rw [Real.log_lt_iff_lt_exp (by norm_num : (0:ℝ) < 5/4)]
  refine lt_of_lt_of_le ?_ (Real.sum_le_exp_of_nonneg (by norm_num) 7)
  rw [Finset.sum_range_succ, Finset.sum_range_succ, Finset.sum_range_succ,
    Finset.sum_range_succ, Finset.sum_range_succ, Finset.sum_range_succ,
    Finset.sum_range_succ, Finset.sum_range_zero]
  norm_num [Nat.factorial]

lemma log_2927_lb : (0.0714589 : ℝ) < Real.log (29/27) := by
  rw [Real.lt_log_iff_exp_lt (by norm_num : (0:ℝ) < 29/27)]
  have h := Real.exp_bound' (by norm_num : (0:ℝ) ≤ 0.0714589)
    (by norm_num : (0.0714589:ℝ) ≤ 1) (by norm_num : 0 < 5)
  refine lt_of_le_of_lt h ?_
  rw [Finset.sum_range_succ, Finset.sum_range_succ, Finset.sum_range_succ,
    Finset.sum_range_succ, Finset.sum_range_succ, Finset.sum_range_zero]
  norm_num [Nat.factorial]

lemma log_2927_ub : Real.log (29/27) < (0.0714591 : ℝ) := by
  rw [Real.log_lt_iff_lt_exp (by norm_num : (0:ℝ) < 29/27)]
  refine lt_of_lt_of_le ?_ (Real.sum_le_exp_of_nonneg (by norm_num) 6)
  rw [Finset.sum_range_succ, Finset.sum_range_succ, Finset.sum_range_succ,
    Finset.sum_range_succ, Finset.sum_range_succ, Finset.sum_range_succ,
    Finset.sum_range_zero]
  norm_num [Nat.factorial]

lemma log_4745_lb : (0.0434850 : ℝ) < Real.log (47/45) := by
  rw [Real.lt_log_iff_exp_lt (by norm_num : (0:ℝ) < 47/45)]
  have h := Real.exp_bound' (by norm_num : (0:ℝ) ≤ 0.0434850)
    (by norm_num : (0.0434850:ℝ) ≤ 1) (by norm_num : 0 < 5)
  refine lt_of_le_of_lt h ?_
  rw [Finset.sum_range_succ, Finset.sum_range_succ, Finset.sum_range_succ,
    Finset.sum_range_succ, Finset.sum_range_succ, Finset.sum_range_zero]
  norm_num [Nat.factorial]

lemma log_4745_ub : Real.log (47/45) < (0.0434853 : ℝ) := by
  rw [Real.log_lt_iff_lt_exp (by norm_num : (0:ℝ) < 47/45)]
  refine lt_of_lt_of_le ?_ (Real.sum_le_exp_of_nonneg (by norm_num) 6)
  rw [Finset.sum_range_succ, Finset.sum_range_succ, Finset.sum_range_succ,
    Finset.sum_range_succ, Finset.sum_range_succ, Finset.sum_range_succ,
    Finset.sum_range_zero]
  norm_num [Nat.factorial]

lemma log_3_bounds : (1.0986121 : ℝ) < Real.log 3 ∧ Real.log 3 < (1.0986124 : ℝ) := by
  have he : Real.log 3 = Real.log 2 + Real.log (3/2) := by
    rw [← Real.log_mul (by norm_num) (by norm_num)]; norm_num
  have h1 := Real.log_two_gt_d9
  have h2 := Real.log_two_lt_d9
  have h3 := log_32_lb
  have h4 := log_32_ub
  constructor <;> rw [he] <;> linarith

lemma log_5_bounds : (1.6094377 : ℝ) < Real.log 5 ∧ Real.log 5 < (1.6094380 : ℝ) := by
  have he : Real.log 5 = 2 * Real.log 2 + Real.log (5/4) := by
    rw [show (5:ℝ) = 2^2 * (5/4) by norm_num,
      Real.log_mul (by norm_num) (by norm_num), Real.log_pow]
    push_cast; ring
  have h1 := Real.log_two_gt_d9
  have h2 := Real.log_two_lt_d9
  have h3 := log_54_lb
  have h4 := log_54_ub
  constructor <;> rw [he] <;> linarith

lemma log_2710_bounds : (0.9932511 : ℝ) < Real.log (27/10) ∧
    Real.log (27/10) < (0.9932524 : ℝ) := by
  have he : Real.log (27/10) = 3 * Real.log 3 - Real.log 2 - Real.log 5 := by
    rw [show (27:ℝ)/10 = 3^3 / (2*5) by norm_num,
      Real.log_div (by norm_num) (by norm_num), Real.log_pow,
      Real.log_mul (by norm_num) (by norm_num)]
    push_cast; ring
  have h1 := Real.log_two_gt_d9
  have h2 := Real.log_two_lt_d9
  have h3 := log_3_bounds
  have h5 := log_5_bounds
  constructor <;> rw [he] <;> linarith [h3.1, h3.2, h5.1, h5.2]

lemma log_92_bounds : (1.5040770 : ℝ) < Real.log (9/2) ∧
    Real.log (9/2) < (1.5040777 : ℝ) := by
  have he : Real.log (9/2) = 2 * Real.log 3 - Real.log 2 := by
    rw [show (9:ℝ)/2 = 3^2 / 2 by norm_num,
      Real.log_div (by norm_num) (by norm_num), Real.log_pow]
    push_cast; ring
  have h1 := Real.log_two_gt_d9
  have h2 := Real.log_two_lt_d9
  have h3 := log_3_bounds
  constructor <;> rw [he] <;> linarith [h3.1, h3.2]

lemma log_1003_bounds : (3.5065573 : ℝ) < Real.log (100/3) ∧
    Real.log (100/3) < (3.5065583 : ℝ) := by
  have he : Real.log (100/3) = 2 * Real.log 2 + 2 * Real.log 5 - Real.log 3 := by
    rw [show (100:ℝ)/3 = 2^2 * 5^2 / 3 by norm_num,
      Real.log_div (by norm_num) (by norm_num),
      Real.log_mul (by norm_num) (by norm_num), Real.log_pow, Real.log_pow]
    push_cast; ring
  have h1 := Real.log_two_gt_d9
  have h2 := Real.log_two_lt_d9
  have h3 := log_3_bounds
  have h5 := log_5_bounds
  constructor <;> rw [he] <;> linarith [h3.1, h3.2, h5.1, h5.2]

lemma log_475_bounds : (2.2407091 : ℝ) < Real.log (47/5) ∧
    Real.log (47/5) < (2.2407102 : ℝ) := by
  have he : Real.log (47/5) = 2 * Real.log 3 + Real.log (47/45) := by
    rw [show (47:ℝ)/5 = 3^2 * (47/45) by norm_num,
      Real.log_mul (by norm_num) (by norm_num), Real.log_pow]
    push_cast; ring
  have h3 := log_3_bounds
  have h4 := log_4745_lb
  have h5 := log_4745_ub
  constructor <;> rw [he] <;> linarith [h3.1, h3.2]

lemma log_60_bounds : (4.0943441 : ℝ) < Real.log 60 ∧ Real.log 60 < (4.0943448 : ℝ) := by
  have he : Real.log 60 = 2 * Real.log 2 + Real.log 3 + Real.log 5 := by
    rw [show (60:ℝ) = 2^2 * (3 * 5) by norm_num,
      Real.log_mul (by norm_num) (by norm_num), Real.log_pow,
      Real.log_mul (by norm_num) (by norm_num)]
    push_cast; ring
  have h1 := Real.log_two_gt_d9
  have h2 := Real.log_two_lt_d9
  have h3 := log_3_bounds
  have h5 := log_5_bounds
  constructor <;> rw [he] <;> linarith [h3.1, h3.2, h5.1, h5.2]

lemma log_5081_bounds : (-0.4824271 : ℝ) < Real.log (50/81) ∧
    Real.log (50/81) < (-0.4824252 : ℝ) := by
  have he : Real.log (50/81) = Real.log 2 + 2 * Real.log 5 - 4 * Real.log 3 := by
    rw [show (50:ℝ)/81 = 2 * 5^2 / 3^4 by norm_num,
      Real.log_div (by norm_num) (by norm_num),
      Real.log_mul (by norm_num) (by norm_num), Real.log_pow, Real.log_pow]
    push_cast; ring
  have h1 := Real.log_two_gt_d9
  have h2 := Real.log_two_lt_d9
  have h3 := log_3_bounds
  have h5 := log_5_bounds
  constructor <;> rw [he] <;> linarith [h3.1, h3.2, h5.1, h5.2]

lemma log_2729_bounds : (-0.0714591 : ℝ) < Real.log (27/29) ∧
    Real.log (27/29) < (-0.0714589 : ℝ) := by
  have he : Real.log (27/29) = -Real.log (29/27) := by
    rw [show (27:ℝ)/29 = ((29:ℝ)/27)⁻¹ by norm_num, Real.log_inv]
  have h1 := log_2927_lb
  have h2 := log_2927_ub
  constructor <;> rw [he] <;> linarith

lemma log_503_bounds : (2.8134101 : ℝ) < Real.log (50/3) ∧
    Real.log (50/3) < (2.8134111 : ℝ) := by
  have he : Real.log (50/3) = Real.log 2 + 2 * Real.log 5 - Real.log 3 := by
    rw [show (50:ℝ)/3 = 2 * 5^2 / 3 by norm_num,
      Real.log_div (by norm_num) (by norm_num),
      Real.log_mul (by norm_num) (by norm_num), Real.log_pow]
    push_cast; ring
  have h1 := Real.log_two_gt_d9
  have h2 := Real.log_two_lt_d9
  have h3 := log_3_bounds
  have h5 := log_5_bounds
  constructor <;> rw [he] <;> linarith [h3.1, h3.2, h5.1, h5.2]

lemma exp_golden_lb : (0.9080228 : ℝ) ≤ Real.exp (-0.0964855) := by
  have habs : |(-0.0964855 : ℝ)| = 0.0964855 := by
    rw [abs_of_nonpos (by norm_num)]; norm_num
  have hx : |(-0.0964855 : ℝ)| ≤ 1 := by rw [habs]; norm_num
  have hn : (0:ℕ) < 5 := by norm_num
  have h := (abs_le.mp (Real.exp_bound hx hn)).1
  rw [habs, Finset.sum_range_succ, Finset.sum_range_succ, Finset.sum_range_succ,
    Finset.sum_range_succ, Finset.sum_range_succ, Finset.sum_range_zero] at h
  norm_num [Nat.factorial] at h
  linarith

lemma exp_golden_ub : Real.exp (-0.0964850) ≤ (0.9080240 : ℝ) := by
  have habs : |(-0.0964850 : ℝ)| = 0.0964850 := by
    rw [abs_of_nonpos (by norm_num)]; norm_num
  have hx : |(-0.0964850 : ℝ)| ≤ 1 := by rw [habs]; norm_num
  have hn : (0:ℕ) < 5 := by norm_num
  have h := (abs_le.mp (Real.exp_bound hx hn)).2
  rw [habs, Finset.sum_range_succ, Finset.sum_range_succ, Finset.sum_range_succ,
    Finset.sum_range_succ, Finset.sum_range_succ, Finset.sum_range_zero] at h
  norm_num [Nat.factorial] at h
  linarith

/-! ## The Sheffield Bioincubator golden run (wall-mounted engine) -/

/-- The Sheffield Bioincubator golden inputs (test_wind_calculator.py lines 36-48). -/
def sheffieldInputs : WallInputs :=
  { sign_width := 20
    sign_height := 27
    sign_depth := 29
    building_height := 27
    site_altitude := 105
    v_map := 22.1
    distance_to_shore := 100
    terrain_type := Terrain.town
    distance_into_town := 2 }

lemma c_alt_golden : calculate_altitude_factor 105 27
    = 1 + 0.105 * Real.exp (Real.log (50/81) * 0.2) := by
  unfold calculate_altitude_factor
  rw [if_pos (by norm_num : (0.6:ℝ) * 27 ≥ 10),
    Real.rpow_def_of_pos (by norm_num : (0:ℝ) < 10 / (0.6 * 27)),
    show (10:ℝ) / (0.6 * 27) = 50/81 by norm_num]
  norm_num

lemma c_e_golden : calculate_exposure_factor 27 0.0 100 Terrain.town
    = (2.5 + 0.28 * Real.log (27/10), Zone.C) := by
  unfold calculate_exposure_factor
  rw [if_neg (by rw [not_or]; exact ⟨by simp, by norm_num⟩), if_pos rfl]
  rw [show max ((27:ℝ) - 0.0) 2.0 = 27 from by
    rw [max_eq_left (by norm_num)]; norm_num]
  norm_num

lemma town_golden : calculate_town_correction 2 27 = 1.04 := by
  unfold calculate_town_correction
  rw [if_neg (by norm_num), if_neg (by norm_num)]
  norm_num

lemma c_s_golden : calculate_size_factor 20 27 (27 - 0.0) Zone.C
    = 1.0 + (0.75 + (0.85 - 0.75) * Real.log (9/2) / Real.log (100/3) - 1.0)
      * Real.log (47/5) / Real.log (300/5) := by
  unfold calculate_size_factor
  norm_num

lemma c_d_golden : calculate_dynamic_factor 27 20 = 1.074 := by
  unfold calculate_dynamic_factor
  rw [if_neg (by norm_num : ¬((27:ℝ) ≤ 15)),
    if_neg (by norm_num : ¬((27:ℝ)/20 ≤ 0.25)),
    if_neg (by norm_num : ¬((27:ℝ)/20 ≥ 10)),
    if_neg (by norm_num : ¬((27:ℝ)/20 ≤ 0.5)),
    if_neg (by norm_num : ¬((27:ℝ)/20 ≤ 1)),
    if_pos (by norm_num : ((27:ℝ)/20 ≤ 2))]
  norm_num

lemma c_f_golden : calculate_force_coefficient 27 29
    = (0.935 + 0.1839 * Real.log (27/29), []) := by
  unfold calculate_force_coefficient
  norm_num

lemma sheffield_v_map : (WindLoadCalculator.calculate_wind_loading sheffieldInputs).v_map
    = 22.1 := rfl

lemma sheffield_c_dir : (WindLoadCalculator.calculate_wind_loading sheffieldInputs).c_dir
    = 1.0 := rfl

lemma sheffield_c_alt : (WindLoadCalculator.calculate_wind_loading sheffieldInputs).c_alt
    = 1 + 0.105 * Real.exp (Real.log (50/81) * 0.2) := by
  show calculate_altitude_factor 105 27 = _
  exact c_alt_golden

lemma sheffield_c_e : (WindLoadCalculator.calculate_wind_loading sheffieldInputs).c_e
    = 2.5 + 0.28 * Real.log (27/10) := by
  show (calculate_exposure_factor 27 0.0 100 Terrain.town).1 = _
  rw [c_e_golden]

lemma sheffield_c_e_T : (WindLoadCalculator.calculate_wind_loading sheffieldInputs).c_e_T
    = 1.04 := by
  show (if Terrain.town = Terrain.town ∧ (2:ℝ) > 0
    then calculate_town_correction 2 27 else 1.0) = 1.04
  rw [if_pos ⟨rfl, by norm_num⟩, town_golden]

lemma sheffield_q_p : (WindLoadCalculator.calculate_wind_loading sheffieldInputs).q_p
    = 0.613 * (22.1 * (1 + 0.105 * Real.exp (Real.log (50/81) * 0.2)) * 1.0) ^ 2
      * (2.5 + 0.28 * Real.log (27/10)) * 1.04 := by
  show calculate_peak_velocity_pressure 22.1 (calculate_altitude_factor 105 27) 1.0
      (calculate_exposure_factor 27 0.0 100 Terrain.town).1
      (if Terrain.town = Terrain.town ∧ (2:ℝ) > 0
        then calculate_town_correction 2 27 else 1.0) = _
  rw [c_alt_golden, c_e_golden, if_pos ⟨rfl, by norm_num⟩, town_golden]
  norm_num [calculate_peak_velocity_pressure]

lemma sheffield_c_s : (WindLoadCalculator.calculate_wind_loading sheffieldInputs).c_s
    = 1.0 + (0.75 + (0.85 - 0.75) * Real.log (9/2) / Real.log (100/3) - 1.0)
      * Real.log (47/5) / Real.log (300/5) := by
  show calculate_size_factor 20 27 (27 - 0.0)
    (calculate_exposure_factor 27 0.0 100 Terrain.town).2 = _
  rw [c_e_golden]
  exact c_s_golden

lemma sheffield_c_d : (WindLoadCalculator.calculate_wind_loading sheffieldInputs).c_d
    = 1.074 := by
  show calculate_dynamic_factor 27 20 = _
  exact c_d_golden

lemma sheffield_c_f : (WindLoadCalculator.calculate_wind_loading sheffieldInputs).c_f
    = 0.935 + 0.1839 * Real.log (27/29) := by
  show (calculate_force_coefficient 27 29).1 = _
  rw [c_f_golden]

lemma sheffield_force_kN : (WindLoadCalculator.calculate_wind_loading sheffieldInputs).force_kN
    = (WindLoadCalculator.calculate_wind_loading sheffieldInputs).q_p
      * (WindLoadCalculator.calculate_wind_loading sheffieldInputs).c_s
      * (WindLoadCalculator.calculate_wind_loading sheffieldInputs).c_d
      * (WindLoadCalculator.calculate_wind_loading sheffieldInputs).c_f
      * (20 * 27) / 1000 := rfl

lemma c_alt_expr_bounds :
    (1.0953423 : ℝ) ≤ 1 + 0.105 * Real.exp (Real.log (50/81) * 0.2) ∧
      1 + 0.105 * Real.exp (Real.log (50/81) * 0.2) ≤ 1.0953426 := by
  have hL := log_5081_bounds
  have h1 : Real.log (50/81) * 0.2 ≤ -0.0964850 := by linarith [hL.2]
  have h2 : (-0.0964855 : ℝ) ≤ Real.log (50/81) * 0.2 := by linarith [hL.1]
  have e1 := Real.exp_le_exp.mpr h1
  have e2 := Real.exp_le_exp.mpr h2
  have g1 := exp_golden_lb
  have g2 := exp_golden_ub
  constructor <;> linarith

lemma q_p_expr_bounds :
    (1037.8 : ℝ) ≤ 0.613 * (22.1 * (1 + 0.105 * Real.exp (Real.log (50/81) * 0.2)) * 1.0) ^ 2
        * (2.5 + 0.28 * Real.log (27/10)) * 1.04 ∧
      0.613 * (22.1 * (1 + 0.105 * Real.exp (Real.log (50/81) * 0.2)) * 1.0) ^ 2
        * (2.5 + 0.28 * Real.log (27/10)) * 1.04 ≤ 1037.9 := by
  obtain ⟨hA1, hA2⟩ := c_alt_expr_bounds
  obtain ⟨hE1, hE2⟩ := log_2710_bounds
  set A := 1 + 0.105 * Real.exp (Real.log (50/81) * 0.2) with hA
  set L := Real.log (27/10) with hL
  have hv1 : 22.1 * A * 1.0 ≤ 22.1 * 1.0953426 := by linarith
  have hv2 : 22.1 * 1.0953423 ≤ 22.1 * A * 1.0 := by linarith
  have hv0 : (0:ℝ) ≤ 22.1 * 1.0953423 := by norm_num
  have hsq1 : (22.1 * A * 1.0) ^ 2 ≤ 585.98231 := by nlinarith [hv1, hv2]
  have hsq2 : (585.98198 : ℝ) ≤ (22.1 * A * 1.0) ^ 2 := by nlinarith [hv1, hv2]
  have hce1 : 2.5 + 0.28 * L ≤ 2.7781107 := by linarith
  have hce2 : (2.7781103 : ℝ) ≤ 2.5 + 0.28 * L := by linarith
  have hsq0 : (0:ℝ) ≤ (22.1 * A * 1.0) ^ 2 := sq_nonneg _
  have h3 : 0.613 * (22.1 * A * 1.0) ^ 2 * (2.5 + 0.28 * L)
      ≤ 0.613 * 585.98231 * 2.7781107 :=
    mul_le_mul (by linarith) hce1 (by linarith) (by norm_num)
  have h4 : 0.613 * 585.98198 * 2.7781103
      ≤ 0.613 * (22.1 * A * 1.0) ^ 2 * (2.5 + 0.28 * L) :=
    mul_le_mul (by linarith) hce2 (by norm_num) (by linarith)
  constructor <;> linarith [h3, h4]

lemma cs_interp_bounds {x y : ℝ} (hx1 : (0.4289318:ℝ) ≤ x) (hx2 : x ≤ 0.4289337)
    (hy1 : (0.5472689:ℝ) ≤ y) (hy2 : y ≤ 0.5472704) :
    (0.886656 : ℝ) ≤ 1.0 + (0.75 + (0.85 - 0.75) * x - 1.0) * y ∧
      1.0 + (0.75 + (0.85 - 0.75) * x - 1.0) * y ≤ 0.886658 := by
  have k1 : (0.25 - 0.1 * x) * y ≤ (0.25 - 0.1 * 0.4289318) * 0.5472704 :=
    mul_le_mul (by linarith) hy2 (by linarith) (by norm_num)
  have k2 : ((0.25:ℝ) - 0.1 * 0.4289337) * 0.5472689 ≤ (0.25 - 0.1 * x) * y :=
    mul_le_mul (by linarith) hy1 (by norm_num) (by linarith)
  constructor <;> nlinarith [k1, k2]

lemma c_s_expr_bounds :
    (0.886656 : ℝ) ≤ 1.0 + (0.75 + (0.85 - 0.75) * Real.log (9/2) / Real.log (100/3) - 1.0)
        * Real.log (47/5) / Real.log (300/5) ∧
      1.0 + (0.75 + (0.85 - 0.75) * Real.log (9/2) / Real.log (100/3) - 1.0)
        * Real.log (47/5) / Real.log (300/5) ≤ 0.886658 := by
  obtain ⟨h92a, h92b⟩ := log_92_bounds
  obtain ⟨h03a, h03b⟩ := log_1003_bounds
  obtain ⟨h47a, h47b⟩ := log_475_bounds
  obtain ⟨h60a, h60b⟩ := log_60_bounds
  have h03pos : (0:ℝ) < Real.log (100/3) := by linarith
  have h605 : Real.log ((300:ℝ)/5) = Real.log 60 := by norm_num
  have h60pos : (0:ℝ) < Real.log 60 := by linarith
  rw [h605]
  have hAlo : (0.4289318 : ℝ) ≤ Real.log (9/2) / Real.log (100/3) := by
    rw [le_div_iff₀ h03pos]; nlinarith
  have hAhi : Real.log (9/2) / Real.log (100/3) ≤ 0.4289337 := by
    rw [div_le_iff₀ h03pos]; nlinarith
  have hBlo : (0.5472689 : ℝ) ≤ Real.log (47/5) / Real.log 60 := by
    rw [le_div_iff₀ h60pos]; nlinarith
  have hBhi : Real.log (47/5) / Real.log 60 ≤ 0.5472704 := by
    rw [div_le_iff₀ h60pos]; nlinarith
  simp only [mul_div_assoc]
  exact cs_interp_bounds hAlo hAhi hBlo hBhi

lemma c_f_expr_bounds :
    (0.9218586 : ℝ) ≤ 0.935 + 0.1839 * Real.log (27/29) ∧
      0.935 + 0.1839 * Real.log (27/29) ≤ 0.9218589 := by
  have h := log_2729_bounds
  constructor <;> linarith [h.1, h.2]

lemma force_expr_bounds :
    (491.9 : ℝ) ≤ (0.613 * (22.1 * (1 + 0.105 * Real.exp (Real.log (50/81) * 0.2)) * 1.0) ^ 2
        * (2.5 + 0.28 * Real.log (27/10)) * 1.04)
      * (1.0 + (0.75 + (0.85 - 0.75) * Real.log (9/2) / Real.log (100/3) - 1.0)
        * Real.log (47/5) / Real.log (300/5))
      * 1.074 * (0.935 + 0.1839 * Real.log (27/29)) * (20 * 27) / 1000 ∧
      (0.613 * (22.1 * (1 + 0.105 * Real.exp (Real.log (50/81) * 0.2)) * 1.0) ^ 2
        * (2.5 + 0.28 * Real.log (27/10)) * 1.04)
      * (1.0 + (0.75 + (0.85 - 0.75) * Real.log (9/2) / Real.log (100/3) - 1.0)
        * Real.log (47/5) / Real.log (300/5))
      * 1.074 * (0.935 + 0.1839 * Real.log (27/29)) * (20 * 27) / 1000 ≤ 492.1 := by
  obtain ⟨hQ1, hQ2⟩ := q_p_expr_bounds
  obtain ⟨hS1, hS2⟩ := c_s_expr_bounds
  obtain ⟨hF1, hF2⟩ := c_f_expr_bounds
  set Q := 0.613 * (22.1 * (1 + 0.105 * Real.exp (Real.log (50/81) * 0.2)) * 1.0) ^ 2
    * (2.5 + 0.28 * Real.log (27/10)) * 1.04
  set S := 1.0 + (0.75 + (0.85 - 0.75) * Real.log (9/2) / Real.log (100/3) - 1.0)
    * Real.log (47/5) / Real.log (300/5)
  set Fc := 0.935 + 0.1839 * Real.log (27/29)
  have hQ0 : (0:ℝ) ≤ Q := le_trans (by norm_num) hQ1
  have hS0 : (0:ℝ) ≤ S := le_trans (by norm_num) hS1
  have hF0 : (0:ℝ) ≤ Fc := le_trans (by norm_num) hF1
  have h1 : Q * S ≤ 1037.9 * 0.886658 := mul_le_mul hQ2 hS2 hS0 (by norm_num)
  have h2 : 1037.8 * 0.886656 ≤ Q * S := mul_le_mul hQ1 hS1 (by norm_num) hQ0
  have h3 : Q * S * 1.074 ≤ 1037.9 * 0.886658 * 1.074 := by linarith
  have h4 : 1037.8 * 0.886656 * 1.074 ≤ Q * S * 1.074 := by linarith
  have h5 : Q * S * 1.074 * Fc ≤ 1037.9 * 0.886658 * 1.074 * 0.9218589 :=
    mul_le_mul h3 hF2 hF0 (by norm_num)
  have h6 : 1037.8 * 0.886656 * 1.074 * 0.9218586 ≤ Q * S * 1.074 * Fc :=
    mul_le_mul h4 hF1 (by norm_num) (by linarith)
  constructor <;> linarith [h5, h6]

/-- C1: on the Sheffield Bioincubator golden inputs the wall-mounted engine
reproduces the published worked-example values: v_map = 22.1 (±0.1),
c_alt = 1.10 (±0.02), c_dir = 1.0 exactly, c_e·c_e_T = 2.9 (±0.2),
q_p = 1058 Pa (±5%), c_s = 0.85 (±0.05), c_d = 1.03 (±0.05),
c_f = 0.92 (±0.05), and force_kN = 460 (±8%). -/
theorem C1_sheffield_golden_scenario :
    |(WindLoadCalculator.calculate_wind_loading sheffieldInputs).v_map - 22.1| ≤ 0.1 ∧
    |(WindLoadCalculator.calculate_wind_loading sheffieldInputs).c_alt - 1.10| ≤ 0.02 ∧
    (WindLoadCalculator.calculate_wind_loading sheffieldInputs).c_dir = 1.0 ∧
    |(WindLoadCalculator.calculate_wind_loading sheffieldInputs).c_e
      * (WindLoadCalculator.calculate_wind_loading sheffieldInputs).c_e_T - 2.9| ≤ 0.2 ∧
    |(WindLoadCalculator.calculate_wind_loading sheffieldInputs).q_p - 1058| ≤ 0.05 * 1058 ∧
    |(WindLoadCalculator.calculate_wind_loading sheffieldInputs).c_s - 0.85| ≤ 0.05 ∧
    |(WindLoadCalculator.calculate_wind_loading sheffieldInputs).c_d - 1.03| ≤ 0.05 ∧
    |(WindLoadCalculator.calculate_wind_loading sheffieldInputs).c_f - 0.92| ≤ 0.05 ∧
    |(WindLoadCalculator.calculate_wind_loading sheffieldInputs).force_kN - 460| ≤ 0.08 * 460 := by
  refine ⟨?_, ?_, sheffield_c_dir, ?_, ?_, ?_, ?_, ?_, ?_⟩
  · rw [sheffield_v_map]; rw [abs_le]; constructor <;> norm_num
  · rw [sheffield_c_alt, abs_le]
    have h := c_alt_expr_bounds
    constructor <;> linarith [h.1, h.2]
  · rw [sheffield_c_e, sheffield_c_e_T, abs_le]
    have h := log_2710_bounds
    constructor <;> nlinarith [h.1, h.2]
  · rw [sheffield_q_p, abs_le]
    have h := q_p_expr_bounds
    constructor <;> linarith [h.1, h.2]
  · rw [sheffield_c_s, abs_le]
    have h := c_s_expr_bounds
    constructor <;> linarith [h.1, h.2]
  · rw [sheffield_c_d, abs_le]; constructor <;> norm_num
  · rw [sheffield_c_f, abs_le]
    have h := c_f_expr_bounds
    constructor <;> linarith [h.1, h.2]
  · rw [sheffield_force_kN, sheffield_q_p, sheffield_c_s, sheffield_c_d, sheffield_c_f, abs_le]
    have h := force_expr_bounds
    constructor <;> linarith [h.1, h.2]

/-! ## The projecting-sign golden run -/

/-- The projecting-sign golden inputs (projecting_sign_calculator.py lines 488-509). -/
def projGoldenInputs : ProjInputs :=
  { sign_width := 2.0
    sign_height := 1.5
    projection := 0.6
    mounting_height := 4.5
    terrain_category := TerrainCat.catIII
    v_b_0 := 22.5
    c_dir := 1.0
    c_season := 1.0
    sign_weight := 0.15
    n_brackets := 2
    bracket_spacing := 1.2
    n_fixings_per_bracket := 4
    fixing_pitch_vertical := 0.15
    anchor_tension_capacity := 12.0
    anchor_shear_capacity := 8.0
    anchor_gamma_M := 1.5
    bracket_width := 80
    bracket_depth := 60
    bracket_thickness := 5
    bracket_steel_grade := 275 }

lemma proj_q_p_golden : (ProjectingSignCalculator.calculate_wind_loading projGoldenInputs).q_p
    = 0.5 * 1.25 * (0.22 * Real.log (50/3) * (22.5 * 1.0 * 1.0)) ^ 2
      * (1 + 7 * (1.0 / (1.0 * Real.log (50/3)))) / 1000 := by
  show calculate_peak_pressure
      (calculate_roughness_factor (max 4.5 5) 0.3 0.22
        * calculate_basic_wind_velocity 22.5 1.0 1.0)
      (calculate_turbulence_intensity (max 4.5 5) 0.3 1.0 1.0) = _
  unfold calculate_peak_pressure calculate_roughness_factor
    calculate_turbulence_intensity calculate_basic_wind_velocity
  rw [show max (4.5:ℝ) 5 = 5 from max_eq_right (by norm_num),
    show (5:ℝ) / 0.3 = 50/3 by norm_num]

lemma proj_E_bounds :
    (0.422807 : ℝ) ≤ 0.5 * 1.25 * (0.22 * Real.log (50/3) * (22.5 * 1.0 * 1.0)) ^ 2
        * (1 + 7 * (1.0 / (1.0 * Real.log (50/3)))) / 1000 ∧
      0.5 * 1.25 * (0.22 * Real.log (50/3) * (22.5 * 1.0 * 1.0)) ^ 2
        * (1 + 7 * (1.0 / (1.0 * Real.log (50/3)))) / 1000 ≤ 0.422809 := by
  obtain ⟨hL1, hL2⟩ := log_503_bounds
  have hLpos : (0:ℝ) < Real.log (50/3) := by linarith
  have hone : (1.0:ℝ) * Real.log (50/3) = Real.log (50/3) := by norm_num
  rw [hone]
  have hIv1 : (1.0:ℝ) / Real.log (50/3) ≤ 0.3554409 := by
    rw [div_le_iff₀ hLpos]; nlinarith
  have hIv2 : (0.3554402:ℝ) ≤ 1.0 / Real.log (50/3) := by
    rw [le_div_iff₀ hLpos]; nlinarith
  set L := Real.log (50/3)
  have hv1 : 0.22 * L * (22.5 * 1.0 * 1.0) ≤ 0.22 * 2.8134111 * 22.5 := by nlinarith
  have hv2 : (0.22:ℝ) * 2.8134101 * 22.5 ≤ 0.22 * L * (22.5 * 1.0 * 1.0) := by nlinarith
  have hsq1 : (0.22 * L * (22.5 * 1.0 * 1.0)) ^ 2 ≤ 193.944198 := by nlinarith [hv1, hv2]
  have hsq2 : (193.944059 : ℝ) ≤ (0.22 * L * (22.5 * 1.0 * 1.0)) ^ 2 := by
    nlinarith [hv1, hv2]
  have hop1 : 1 + 7 * (1.0 / L) ≤ 3.4880863 := by linarith
  have hop2 : (3.4880814 : ℝ) ≤ 1 + 7 * (1.0 / L) := by linarith
  have hsq0 : (0:ℝ) ≤ (0.22 * L * (22.5 * 1.0 * 1.0)) ^ 2 := sq_nonneg _
  have h1 : 0.5 * 1.25 * (0.22 * L * (22.5 * 1.0 * 1.0)) ^ 2 * (1 + 7 * (1.0 / L))
      ≤ 0.5 * 1.25 * 193.944198 * 3.4880863 :=
    mul_le_mul (by linarith) hop1 (by linarith) (by norm_num)
  have h2 : (0.5:ℝ) * 1.25 * 193.944059 * 3.4880814
      ≤ 0.5 * 1.25 * (0.22 * L * (22.5 * 1.0 * 1.0)) ^ 2 * (1 + 7 * (1.0 / L)) :=
    mul_le_mul (by linarith) hop2 (by norm_num) (by linarith)
  constructor <;> linarith [h1, h2]

lemma anchor_eta_of_forces (FEd : ℝ) :
    (calculate_anchor_utilization (FEd / ((2:ℕ):ℝ)) (FEd / ((2:ℕ):ℝ) * 0.6)
      (1.35 * 0.15 / ((2:ℕ):ℝ)) 4 0.15 12.0 8.0 1.5).eta_combined
      = 19/128 * FEd + 81/25600 := by
  unfold calculate_anchor_utilization
  norm_num
  ring

lemma proj_eta_golden :
    (ProjectingSignCalculator.calculate_wind_loading projGoldenInputs).anchor_check.eta_combined
      = 19/128 * (ProjectingSignCalculator.calculate_wind_loading projGoldenInputs).F_w_Ed
        + 81/25600 :=
  anchor_eta_of_forces _

/-- C5 (amended): on the projecting-sign golden inputs the engine returns the
peak-pressure field in kN/m², q_p = 0.4228 (±0.0001) — i.e. 422.8 Pa — and
F_w_k = 2.537 kN (±0.001), F_w_Ed = 3.806 kN (±0.001), anchor
eta_combined = 0.568 (±0.001). -/
theorem C5_projecting_golden_scenario :
    |(ProjectingSignCalculator.calculate_wind_loading projGoldenInputs).q_p - 0.4228| ≤ 0.0001 ∧
    |(ProjectingSignCalculator.calculate_wind_loading projGoldenInputs).F_w_k - 2.537| ≤ 0.001 ∧
    |(ProjectingSignCalculator.calculate_wind_loading projGoldenInputs).F_w_Ed - 3.806| ≤ 0.001 ∧
    |(ProjectingSignCalculator.calculate_wind_loading
      projGoldenInputs).anchor_check.eta_combined - 0.568| ≤ 0.001 := by
  have hq := proj_q_p_golden
  have hb := proj_E_bounds
  have hFk : (ProjectingSignCalculator.calculate_wind_loading projGoldenInputs).F_w_k
      = 2.0 * (ProjectingSignCalculator.calculate_wind_loading projGoldenInputs).q_p
        * (2.0 * 1.5) := rfl
  have hFE : (ProjectingSignCalculator.calculate_wind_loading projGoldenInputs).F_w_Ed
      = 1.5 * (ProjectingSignCalculator.calculate_wind_loading projGoldenInputs).F_w_k := rfl
  refine ⟨?_, ?_, ?_, ?_⟩
  · rw [hq, abs_le]; constructor <;> linarith [hb.1, hb.2]
  · rw [hFk, hq, abs_le]; constructor <;> linarith [hb.1, hb.2]
  · rw [hFE, hFk, hq, abs_le]; constructor <;> linarith [hb.1, hb.2]
  · rw [proj_eta_golden, hFE, hFk, hq, abs_le]; constructor <;> linarith [hb.1, hb.2]

/-- C5 counterexample: the claim as stated says the returned peak-pressure
field is about 422.8 (in Pa); the field actually holds the value in kN/m²
(about 0.4228), nowhere near 422.8 even with a generous 10% tolerance. -/
theorem C5_counterexample :
    ¬ |(ProjectingSignCalculator.calculate_wind_loading projGoldenInputs).q_p - 422.8|
      ≤ 42.28 := by
  have hq := proj_q_p_golden
  have hb := proj_E_bounds
  rw [hq, abs_le]
  intro h
  linarith [h.1, hb.2]

/-! ## Remaining claims -/

/-- C9: on each engine, a second call with identical input on the same
instance yields an identical result record (including the warnings list):
every `calculate_wind_loading` resets the instance's warning log first, so
the result does not depend on the instance state left by the first call. -/
theorem C9_idempotent_engines (s : List Warning) (iw : WallInputs) (ip : PostInputs)
    (ij : ProjInputs) :
    (WindLoadCalculator.run (WindLoadCalculator.run s iw).2 iw).1
        = (WindLoadCalculator.run s iw).1 ∧
      (PostMountedCalculator.run (PostMountedCalculator.run s ip).2 ip).1
        = (PostMountedCalculator.run s ip).1 ∧
      (ProjectingSignCalculator.run (ProjectingSignCalculator.run s ij).2 ij).1
        = (ProjectingSignCalculator.run s ij).1 :=
  ⟨rfl, rfl, rfl⟩

/-- C3 counterexample: for a 200 mm solid timber section, the square section
modulus is 200³/6 while 4/3 of the circular one is 4/3·(π·200³/32); equality
would force π = 4. -/
theorem C3_counterexample :
    (calculate_post_stresses 1 1 200 0 24 SectionType.square Material.timber).W_el ≠
      4 / 3 * (calculate_post_stresses 1 1 200 0 24 SectionType.circular
        Material.timber).W_el := by
  have hπ : Real.pi < 4 := Real.pi_lt_four
  unfold calculate_post_stresses
  norm_num
  intro h
  nlinarith [h, hπ]

/-- C3 (amended): for a post-mounted solid (timber) square section of side b
and a solid circular section of diameter D = b, the square W_el equals exactly
16/(3π) times the circular W_el (about 70% higher; the 4/π ≈ 27% figure is the
area ratio, not the section-modulus ratio). -/
theorem C3_square_circle_modulus (M F t f_y b : ℝ) :
    (calculate_post_stresses M F b t f_y SectionType.square Material.timber).W_el =
      16 / (3 * Real.pi) * (calculate_post_stresses M F b t f_y SectionType.circular
        Material.timber).W_el := by
  unfold calculate_post_stresses
  norm_num
  field_simp
  ring

/-- C4 counterexample: the wall-mounted force-coefficient function divides
h/d with no depth = 0 guard; the call raises instead of returning a result. -/
theorem C4_counterexample : calculate_force_coefficient_run 1 0 = none := by
  simp [calculate_force_coefficient_run]

/-- C4 (amended): for every height > 0, only the post-mounted free-standing
force-coefficient function special-cases depth = 0 to the sentinel ratio 999
and returns a result (the conservative 1.1 with a warning); the wall-mounted
function divides h/d unguarded and raises a division error at depth = 0. -/
theorem C4_depth_zero_sentinel (height width : ℝ) (hh : 0 < height) :
    calculate_force_coefficient_freestanding height 0 width
        = (1.1, [Warning.freestandingHdOver5]) ∧
      calculate_force_coefficient_run height 0 = none := by
  constructor
  · simp only [calculate_force_coefficient_freestanding]
    norm_num
  · simp [calculate_force_coefficient_run]

theorem C4_depth_zero_sentinel_witness :
    (0:ℝ) < 1 ∧
      (calculate_force_coefficient_freestanding 1 0 2
          = (1.1, [Warning.freestandingHdOver5]) ∧
        calculate_force_coefficient_run 1 0 = none) :=
  ⟨by norm_num, C4_depth_zero_sentinel 1 2 (by norm_num)⟩

lemma status_PASS_iff (x : ℝ) :
    ((if x ≤ 1.0 then Status.PASS else Status.FAIL) = Status.PASS ↔ x ≤ 1) := by
  have h10 : (1.0 : ℝ) = 1 := by norm_num
  rw [h10]
  by_cases h : x ≤ 1
  · rw [if_pos h]; simp [h]
  · rw [if_neg h]; simp [h]

/-- C7: every ratio-based utilization check across the three calculators
reports status PASS exactly when its ratio is at most 1 (anchor tension,
shear and combined; bracket bending and shear; post bending and shear;
deflection). -/
theorem C7_status_iff_eta_le_one (V M N : ℝ) (nf : ℕ) (pv NRk VRk gM : ℝ)
    (Mp Fp so tp fyp : ℝ) (st : SectionType) (mat : Material)
    (Vb Lb bo ho tb fyb : ℝ) (Fk : ℝ) (nb : ℕ) (Ld E I : ℝ) :
    ((calculate_anchor_utilization V M N nf pv NRk VRk gM).tension_status = Status.PASS
      ↔ (calculate_anchor_utilization V M N nf pv NRk VRk gM).eta_tension ≤ 1) ∧
    ((calculate_anchor_utilization V M N nf pv NRk VRk gM).shear_status = Status.PASS
      ↔ (calculate_anchor_utilization V M N nf pv NRk VRk gM).eta_shear ≤ 1) ∧
    ((calculate_anchor_utilization V M N nf pv NRk VRk gM).combined_status = Status.PASS
      ↔ (calculate_anchor_utilization V M N nf pv NRk VRk gM).eta_combined ≤ 1) ∧
    ((calculate_bracket_stresses Vb Lb bo ho tb fyb).bending_status = Status.PASS
      ↔ (calculate_bracket_stresses Vb Lb bo ho tb fyb).eta_bending ≤ 1) ∧
    ((calculate_bracket_stresses Vb Lb bo ho tb fyb).shear_status = Status.PASS
      ↔ (calculate_bracket_stresses Vb Lb bo ho tb fyb).eta_shear ≤ 1) ∧
    ((calculate_post_stresses Mp Fp so tp fyp st mat).bending_status = Status.PASS
      ↔ (calculate_post_stresses Mp Fp so tp fyp st mat).eta_bending ≤ 1) ∧
    ((calculate_post_stresses Mp Fp so tp fyp st mat).shear_status = Status.PASS
      ↔ (calculate_post_stresses Mp Fp so tp fyp st mat).eta_shear ≤ 1) ∧
    ((calculate_deflection Fk nb Ld E I).deflection_status = Status.PASS
      ↔ (calculate_deflection Fk nb Ld E I).eta_deflection ≤ 1) := by
  exact ⟨status_PASS_iff _, status_PASS_iff _, status_PASS_iff _, status_PASS_iff _,
    status_PASS_iff _, status_PASS_iff _, status_PASS_iff _, status_PASS_iff _⟩

/-- The post-mounted example inputs (post_mounted_calculator.py lines 394-409):
a 3.0 × 2.0 × 0.3 m sign (h/d = 6.67 > 5) on a 150 mm circular steel post. -/
def postExampleInputs : PostInputs :=
  { sign_width := 3.0
    sign_height := 2.0
    sign_depth := 0.3
    sign_base_height := 2.5
    post_height := 4.5
    site_altitude := 50
    v_map := 22.5
    distance_to_shore := 20
    terrain_type := Terrain.country
    distance_into_town := 0
    post_diameter := 150
    post_thickness := 8
    post_section_type := SectionType.circular
    post_material := Material.steel
    post_steel_grade := 275 }

lemma wall_warnings_eq (i : WallInputs) :
    (WindLoadCalculator.calculate_wind_loading i).warnings
      = [Warning.nonDirectional, Warning.orography]
        ++ (calculate_force_coefficient i.sign_height i.sign_depth).2 := rfl

/-- C6: at the source's own post-mounted example input, the free-standing
force coefficient appends its h/d > 5 warning to the instance log during the
call, but the nested base-pipeline invocation used for the post self-force
(post_diameter = 150 > 0) resets `self.warnings`, so the returned warnings
list holds only the last nested call's warnings and the free-standing
warning is lost. -/
theorem C6_freestanding_warning_dropped :
    (calculate_force_coefficient_freestanding 2.0 0.3 3.0).2
        = [Warning.freestandingHdOver5] ∧
      (PostMountedCalculator.calculate_wind_loading postExampleInputs).warnings
        = [Warning.nonDirectional, Warning.orography, Warning.hdOver5Clamped] ∧
      Warning.freestandingHdOver5 ∉
        (PostMountedCalculator.calculate_wind_loading postExampleInputs).warnings := by
  have h1 : (calculate_force_coefficient_freestanding 2.0 0.3 3.0).2
      = [Warning.freestandingHdOver5] := by
    simp only [calculate_force_coefficient_freestanding]
    norm_num
  have h2 : (PostMountedCalculator.calculate_wind_loading postExampleInputs).warnings
      = [Warning.nonDirectional, Warning.orography, Warning.hdOver5Clamped] := by
    show ((if (150:ℝ) / 1000 > 0 then _ else _ : ℝ × List Warning)).2 = _
    rw [if_pos (by norm_num : (150:ℝ) / 1000 > 0)]
    show (WindLoadCalculator.calculate_wind_loading _).warnings = _
    rw [wall_warnings_eq]
    show [Warning.nonDirectional, Warning.orography]
      ++ (calculate_force_coefficient 2.0 0.3).2 = _
    simp only [calculate_force_coefficient]
    norm_num
  refine ⟨h1, h2, ?_⟩
  rw [h2]
  simp

/-! ## Positivity of the wall-mounted factors (for the force invariant) -/

lemma log_ratio_nonneg {x y : ℝ} (hx : 1 ≤ x) (hy : 1 < y) :
    0 ≤ Real.log x / Real.log y :=
  div_nonneg (Real.log_nonneg hx) (le_of_lt (Real.log_pos hy))

lemma log_ratio_le_one {x y : ℝ} (hx : 0 < x) (hxy : x ≤ y) (hy : 1 < y) :
    Real.log x / Real.log y ≤ 1 := by
  rw [div_le_one (Real.log_pos hy)]
  exact Real.log_le_log hx hxy

lemma one_add_interp_pos {c r : ℝ} (hc : (0.7:ℝ) ≤ c) (hr0 : 0 ≤ r) (hr1 : r ≤ 1) :
    0 < 1.0 + (c - 1.0) * r := by
  rcases le_or_lt c 1 with h | h
  · nlinarith [mul_nonneg (by linarith : (0:ℝ) ≤ 1 - c) (by linarith : (0:ℝ) ≤ 1 - r)]
  · nlinarith [mul_nonneg (by linarith : (0:ℝ) ≤ c - 1) hr0]

lemma calculate_size_factor_pos (w h z : ℝ) (zone : Zone) :
    0 < calculate_size_factor w h z zone := by
  have hq : ∀ z' : ℝ, ¬(z' ≤ 6) → (0:ℝ) ≤ Real.log (z'/6) / Real.log (100/3) := by
    intro z' hz'
    exact log_ratio_nonneg (by rw [le_div_iff₀ (by norm_num : (0:ℝ) < 6)]; linarith)
      (by norm_num)
  have hr : ∀ s : ℝ, ¬(s ≤ 5) → ¬(s ≥ 300) →
      0 ≤ Real.log (s/5) / Real.log (300/5) ∧ Real.log (s/5) / Real.log (300/5) ≤ 1 := by
    intro s hs5 hs300
    push_neg at hs5 hs300
    constructor
    · exact log_ratio_nonneg (by rw [le_div_iff₀ (by norm_num : (0:ℝ) < 5)]; linarith)
        (by norm_num)
    · exact log_ratio_le_one
        (div_pos (by linarith : (0:ℝ) < s) (by norm_num : (0:ℝ) < 5))
        (by rw [div_le_div_iff₀ (by norm_num) (by norm_num)]; linarith)
        (by norm_num)
  cases zone <;>
    simp only [calculate_size_factor, mul_div_assoc] <;>
    split_ifs with h1 h2 h3 h4 h5 <;>
    try positivity
  all_goals
    first
      | (have hqz := hq z (by assumption)
         nlinarith [hqz])
      | (obtain ⟨hr0, hr1⟩ := hr (w + h) (by assumption) (by assumption)
         refine one_add_interp_pos ?_ hr0 hr1
         first
           | (have hqz := hq z (by assumption)
              nlinarith [hqz])
           | norm_num)

lemma calculate_exposure_factor_fst_pos (h d shore : ℝ) (t : Terrain) (hs : 0 ≤ shore) :
    0 < (calculate_exposure_factor h d shore t).1 := by
  have hf0 : (0:ℝ) ≤ min (shore / 100) 1.0 :=
    le_min (div_nonneg hs (by norm_num)) (by norm_num)
  have hf1 : min (shore / 100) 1.0 ≤ 1 := le_trans (min_le_right _ _) (by norm_num)
  have hM : (2:ℝ) ≤ max (h - d) 2.0 := le_trans (by norm_num) (le_max_right _ _)
  have hL : (-4:ℝ) ≤ Real.log (max (h - d) 2.0 / 10) := by
    have h1 : Real.log (1/5) ≤ Real.log (max (h - d) 2.0 / 10) :=
      Real.log_le_log (by norm_num)
        (by rw [div_le_div_iff₀ (by norm_num) (by norm_num)]; linarith)
    have h2 : Real.log (1/5) = -Real.log 5 := by
      rw [show (1/5:ℝ) = 5⁻¹ by norm_num, Real.log_inv]
    have h3 : Real.log 5 ≤ 4 := by
      linarith [Real.log_le_sub_one_of_pos (show (0:ℝ) < 5 by norm_num)]
    linarith
  simp only [calculate_exposure_factor]
  split_ifs <;>
    nlinarith [hL, hf0, hf1,
      mul_nonneg (by linarith : (0:ℝ) ≤ 1 - min (shore / 100) 1.0)
        (by linarith : (0:ℝ) ≤ 2.5 + 0.20 * Real.log (max (h - d) 2.0 / 10) - 1.22),
      mul_nonneg hf0
        (by linarith : (0:ℝ) ≤ 2.1 + 0.22 * Real.log (max (h - d) 2.0 / 10) - 1.22)]

lemma calculate_dynamic_factor_pos (h w : ℝ) : 0 < calculate_dynamic_factor h w := by
  simp only [calculate_dynamic_factor, mul_div_assoc]
  split_ifs with h1 h2 h3 h4 h5 h6 h7 <;> try norm_num
  · nlinarith [div_nonneg (by linarith : (0:ℝ) ≤ h / w - 0.25)
      (by norm_num : (0:ℝ) ≤ 0.5 - 0.25)]
  · nlinarith [div_nonneg (by linarith : (0:ℝ) ≤ h / w - 0.5)
      (by norm_num : (0:ℝ) ≤ 1 - 0.5)]
  · nlinarith [div_nonneg (by linarith : (0:ℝ) ≤ h / w - 1)
      (by norm_num : (0:ℝ) ≤ 2 - 1)]
  · nlinarith [div_nonneg (by linarith : (0:ℝ) ≤ h / w - 2)
      (by norm_num : (0:ℝ) ≤ 4 - 2)]
  · nlinarith [div_nonneg (by linarith : (0:ℝ) ≤ h / w - 4)
      (by norm_num : (0:ℝ) ≤ 10 - 4)]

lemma cf_formula_nonneg (v : ℝ) :
    (0:ℝ) ≤ (if 0.25 ≤ v ∧ v ≤ 1 then 0.935 + 0.1839 * Real.log v
      else if 1 < v ∧ v ≤ 5 then (0.8125 + 0.0375 * v) * (1.1 + 0.1243 * Real.log v)
      else if v < 0.25 then 0.68 else 1.0) := by
  have hlog4 : Real.log 4 ≤ 3 := by
    have := Real.log_le_sub_one_of_pos (show (0:ℝ) < 4 by norm_num)
    linarith
  split_ifs with h1 h2 h3
  · have hlo : Real.log 0.25 ≤ Real.log v := Real.log_le_log (by norm_num) h1.1
    have h025 : Real.log 0.25 = -Real.log 4 := by
      rw [show (0.25:ℝ) = 4⁻¹ by norm_num, Real.log_inv]
    linarith
  · have hv0 : (0:ℝ) ≤ 0.8125 + 0.0375 * v := by nlinarith [h2.1]
    have hv1 : (0:ℝ) ≤ 1.1 + 0.1243 * Real.log v := by
      have := Real.log_nonneg (le_of_lt h2.1)
      linarith
    exact mul_nonneg hv0 hv1
  · norm_num
  · norm_num

lemma calculate_force_coefficient_fst_nonneg (h d : ℝ) :
    0 ≤ (calculate_force_coefficient h d).1 := by
  simp only [calculate_force_coefficient]
  exact cf_formula_nonneg _

lemma calculate_town_correction_ge_one (d h : ℝ) : 1 ≤ calculate_town_correction d h := by
  unfold calculate_town_correction
  split_ifs with h1 h2 <;> push_neg at * <;> try norm_num
  linarith

/-- C8: for every wall-mounted calculation with positive width, height, depth
and building height, non-negative altitude and non-negative site distances,
the returned force is exactly q_p × c_s × c_d × c_f × A_ref with
A_ref = width × height, the overturning moment is
force × (building_height − sign_height/2) / 1000, and both force fields are
non-negative. -/
theorem C8_wall_force_invariant (i : WallInputs) (hw : 0 < i.sign_width)
    (hh : 0 < i.sign_height) (hd : 0 < i.sign_depth) (hb : 0 < i.building_height)
    (ha : 0 ≤ i.site_altitude) (hs : 0 ≤ i.distance_to_shore) :
    (WindLoadCalculator.calculate_wind_loading i).force_N
        = (WindLoadCalculator.calculate_wind_loading i).q_p
          * (WindLoadCalculator.calculate_wind_loading i).c_s
          * (WindLoadCalculator.calculate_wind_loading i).c_d
          * (WindLoadCalculator.calculate_wind_loading i).c_f
          * (WindLoadCalculator.calculate_wind_loading i).A_ref ∧
      (WindLoadCalculator.calculate_wind_loading i).A_ref
        = i.sign_width * i.sign_height ∧
      (WindLoadCalculator.calculate_wind_loading i).moment_kNm
        = (WindLoadCalculator.calculate_wind_loading i).force_N
          * (i.building_height - i.sign_height / 2) / 1000 ∧
      0 ≤ (WindLoadCalculator.calculate_wind_loading i).force_N ∧
      0 ≤ (WindLoadCalculator.calculate_wind_loading i).force_kN := by
  have hce := calculate_exposure_factor_fst_pos i.building_height 0.0
    i.distance_to_shore i.terrain_type hs
  have hceT : (1:ℝ) ≤ (if i.terrain_type = Terrain.town ∧ i.distance_into_town > 0
      then calculate_town_correction i.distance_into_town i.building_height
      else 1.0) := by
    split_ifs
    · exact calculate_town_correction_ge_one _ _
    · norm_num
  have hqp : 0 ≤ calculate_peak_velocity_pressure i.v_map
      (calculate_altitude_factor i.site_altitude i.building_height) 1.0
      (calculate_exposure_factor i.building_height 0.0 i.distance_to_shore
        i.terrain_type).1
      (if i.terrain_type = Terrain.town ∧ i.distance_into_town > 0
        then calculate_town_correction i.distance_into_town i.building_height
        else 1.0) := by
    unfold calculate_peak_velocity_pressure
    have h1 : (0:ℝ) ≤ 0.613 * (i.v_map
        * calculate_altitude_factor i.site_altitude i.building_height * 1.0) ^ 2 :=
      mul_nonneg (by norm_num) (sq_nonneg _)
    exact mul_nonneg (mul_nonneg h1 (le_of_lt hce)) (by linarith)
  have hcs := calculate_size_factor_pos i.sign_width i.sign_height
    (i.building_height - 0.0)
    (calculate_exposure_factor i.building_height 0.0 i.distance_to_shore
      i.terrain_type).2
  have hcd := calculate_dynamic_factor_pos i.building_height i.sign_width
  have hcf := calculate_force_coefficient_fst_nonneg i.sign_height i.sign_depth
  have hA : (0:ℝ) ≤ i.sign_width * i.sign_height :=
    mul_nonneg (le_of_lt hw) (le_of_lt hh)
  have hN : 0 ≤ (WindLoadCalculator.calculate_wind_loading i).force_N :=
    mul_nonneg (mul_nonneg (mul_nonneg (mul_nonneg hqp (le_of_lt hcs))
      (le_of_lt hcd)) hcf) hA
  exact ⟨rfl, rfl, rfl, hN, div_nonneg hN (by norm_num)⟩

theorem C8_wall_force_invariant_witness :
    ((0:ℝ) < 20 ∧ (0:ℝ) < 27 ∧ (0:ℝ) < 29 ∧ (0:ℝ) ≤ 105 ∧ (0:ℝ) ≤ 100) ∧
      ((WindLoadCalculator.calculate_wind_loading sheffieldInputs).force_N
          = (WindLoadCalculator.calculate_wind_loading sheffieldInputs).q_p
            * (WindLoadCalculator.calculate_wind_loading sheffieldInputs).c_s
            * (WindLoadCalculator.calculate_wind_loading sheffieldInputs).c_d
            * (WindLoadCalculator.calculate_wind_loading sheffieldInputs).c_f
            * (WindLoadCalculator.calculate_wind_loading sheffieldInputs).A_ref ∧
        (WindLoadCalculator.calculate_wind_loading sheffieldInputs).A_ref
          = sheffieldInputs.sign_width * sheffieldInputs.sign_height ∧
        (WindLoadCalculator.calculate_wind_loading sheffieldInputs).moment_kNm
          = (WindLoadCalculator.calculate_wind_loading sheffieldInputs).force_N
            * (sheffieldInputs.building_height - sheffieldInputs.sign_height / 2) / 1000 ∧
        0 ≤ (WindLoadCalculator.calculate_wind_loading sheffieldInputs).force_N ∧
        0 ≤ (WindLoadCalculator.calculate_wind_loading sheffieldInputs).force_kN) :=
  ⟨⟨by norm_num, by norm_num, by norm_num, by norm_num, by norm_num⟩,
    C8_wall_force_invariant sheffieldInputs (by norm_num [sheffieldInputs])
      (by norm_num [sheffieldInputs]) (by norm_num [sheffieldInputs])
      (by norm_num [sheffieldInputs]) (by norm_num [sheffieldInputs])
      (by norm_num [sheffieldInputs])⟩

/-- C10: whenever a positive post diameter is supplied, the post self-force
equals q_p evaluated at post mid-height times the section-dependent c_f
(2.0 square, 0.7 circular) times (diameter/1000) times post height, divided
by 1000, with no size factor and no dynamic factor; the sign-panel force,
by contrast, multiplies in both c_s and c_d. -/
theorem C10_post_self_force (i : PostInputs) (hpd : 0 < i.post_diameter) :
    (PostMountedCalculator.calculate_wind_loading i).F_w_post
        = (WindLoadCalculator.calculate_wind_loading
            { sign_width := i.sign_width
              sign_height := i.sign_height
              sign_depth := i.sign_depth
              building_height := i.post_height / 2
              site_altitude := i.site_altitude
              v_map := i.v_map
              distance_to_shore := i.distance_to_shore
              terrain_type := i.terrain_type
              distance_into_town := i.distance_into_town }).q_p
          * (match i.post_section_type with
              | SectionType.square => (2.0:ℝ)
              | SectionType.circular => 0.7)
          * (i.post_diameter / 1000 * i.post_height) / 1000 ∧
      (PostMountedCalculator.calculate_wind_loading i).F_w_sign
        = (PostMountedCalculator.calculate_wind_loading i).q_p
          * (PostMountedCalculator.calculate_wind_loading i).c_s
          * (PostMountedCalculator.calculate_wind_loading i).c_d
          * (PostMountedCalculator.calculate_wind_loading i).c_f
          * (i.sign_width * i.sign_height) / 1000 := by
  constructor
  · have hcond : i.post_diameter / 1000 > 0 := by positivity
    show ((if i.post_diameter / 1000 > 0 then _ else _ : ℝ × List Warning)).1 = _
    rw [if_pos hcond]
  · rfl

theorem C10_post_self_force_witness :
    (0:ℝ) < postExampleInputs.post_diameter ∧
      ((PostMountedCalculator.calculate_wind_loading postExampleInputs).F_w_post
          = (WindLoadCalculator.calculate_wind_loading
              { sign_width := postExampleInputs.sign_width
                sign_height := postExampleInputs.sign_height
                sign_depth := postExampleInputs.sign_depth
                building_height := postExampleInputs.post_height / 2
                site_altitude := postExampleInputs.site_altitude
                v_map := postExampleInputs.v_map
                distance_to_shore := postExampleInputs.distance_to_shore
                terrain_type := postExampleInputs.terrain_type
                distance_into_town := postExampleInputs.distance_into_town }).q_p
            * (match postExampleInputs.post_section_type with
                | SectionType.square => (2.0:ℝ)
                | SectionType.circular => 0.7)
            * (postExampleInputs.post_diameter / 1000 * postExampleInputs.post_height)
            / 1000 ∧
        (PostMountedCalculator.calculate_wind_loading postExampleInputs).F_w_sign
          = (PostMountedCalculator.calculate_wind_loading postExampleInputs).q_p
            * (PostMountedCalculator.calculate_wind_loading postExampleInputs).c_s
            * (PostMountedCalculator.calculate_wind_loading postExampleInputs).c_d
            * (PostMountedCalculator.calculate_wind_loading postExampleInputs).c_f
            * (postExampleInputs.sign_width * postExampleInputs.sign_height) / 1000) :=
  ⟨by norm_num [postExampleInputs],
    C10_post_self_force postExampleInputs (by norm_num [postExampleInputs])⟩

/-- Branch-expanded form of `calculate_force_coefficient`: the lets of the
source translation unfolded, proved by definitional unfolding. -/
lemma calculate_force_coefficient_eq (height depth : ℝ) :
    calculate_force_coefficient height depth =
      ((if 0.25 ≤ (if height / depth > 5 then (5.0 : ℝ) else height / depth) ∧
            (if height / depth > 5 then (5.0 : ℝ) else height / depth) ≤ 1 then
          0.935 + 0.1839 * Real.log (if height / depth > 5 then (5.0 : ℝ) else height / depth)
        else if 1 < (if height / depth > 5 then (5.0 : ℝ) else height / depth) ∧
            (if height / depth > 5 then (5.0 : ℝ) else height / depth) ≤ 5 then
          (0.8125 + 0.0375 * (if height / depth > 5 then (5.0 : ℝ) else height / depth)) *
            (1.1 + 0.1243 * Real.log (if height / depth > 5 then (5.0 : ℝ) else height / depth))
        else if (if height / depth > 5 then (5.0 : ℝ) else height / depth) < 0.25 then 0.68
        else 1.0),
       (if height / depth > 5 then [Warning.hdOver5Clamped] else [])) := rfl

/-- Branch-expanded form of `calculate_force_coefficient_freestanding`. -/
lemma calculate_force_coefficient_freestanding_eq (height depth width : ℝ) :
    calculate_force_coefficient_freestanding height depth width =
      (if 0.25 ≤ (if depth > 0 then height / depth else 999) ∧
          (if depth > 0 then height / depth else 999) ≤ 1 then
        ((0.935 + 0.1839 * Real.log (if depth > 0 then height / depth else 999)) * 1.1, [])
      else if 1 < (if depth > 0 then height / depth else 999) ∧
          (if depth > 0 then height / depth else 999) ≤ 5 then
        ((0.8125 + 0.0375 * (if depth > 0 then height / depth else 999)) *
            (1.1 + 0.1243 * Real.log (if depth > 0 then height / depth else 999)) * 1.1, [])
      else if (if depth > 0 then height / depth else 999) < 0.25 then (0.68 * 1.1, [])
      else (1.0 * 1.1, [Warning.freestandingHdOver5])) := rfl

/-- C2 counterexample: at height 6, depth 1 (h/d = 6 > 5), the free-standing
coefficient is the flat 1.0 × 1.1 = 1.1, while the wall-mounted coefficient
clamps to the h/d = 5 formula (about 1.30), so the 1.1 ratio fails. -/
theorem C2_counterexample :
    (calculate_force_coefficient_freestanding 6 1 1).1
      ≠ 1.1 * (calculate_force_coefficient 6 1).1 := by
  have hfs : (calculate_force_coefficient_freestanding 6 1 1).1 = 1.0 * 1.1 := by
    rw [calculate_force_coefficient_freestanding_eq]
    norm_num
  have hw : (calculate_force_coefficient 6 1).1
      = (0.8125 + 0.0375 * 5.0) * (1.1 + 0.1243 * Real.log 5.0) := by
    rw [calculate_force_coefficient_eq]
    norm_num
  rw [hfs, hw]
  have hlog := Real.log_pos (show (1:ℝ) < 5.0 by norm_num)
  intro h
  nlinarith [hlog]

/-- C2 (amended): for every height > 0 and depth > 0, the free-standing force
coefficient equals 1.1 times the wall-mounted one on every branch with
h/d ≤ 5 (and then neither function warns); for h/d > 5 both functions append
a warning, but the free-standing value is the flat 1.0 × 1.1 while the
wall-mounted value clamps to the h/d = 5 formula, so the 1.1 ratio does not
hold on that branch. -/
theorem C2_freestanding_ratio (height depth width : ℝ) (hh : 0 < height)
    (hd : 0 < depth) :
    (height / depth ≤ 5 →
      (calculate_force_coefficient_freestanding height depth width).1
          = 1.1 * (calculate_force_coefficient height depth).1 ∧
        (calculate_force_coefficient_freestanding height depth width).2 = [] ∧
        (calculate_force_coefficient height depth).2 = []) ∧
    (5 < height / depth →
      (calculate_force_coefficient_freestanding height depth width).1 = 1.0 * 1.1 ∧
        (calculate_force_coefficient_freestanding height depth width).2
          = [Warning.freestandingHdOver5] ∧
        (calculate_force_coefficient height depth).1
          = (0.8125 + 0.0375 * 5.0) * (1.1 + 0.1243 * Real.log 5.0) ∧
        (calculate_force_coefficient height depth).2 = [Warning.hdOver5Clamped]) := by
  have hd' : depth > 0 := hd
  have hr : (0:ℝ) < height / depth := div_pos hh hd
  have hg : (if depth > 0 then height / depth else 999) = height / depth := if_pos hd'
  constructor
  · intro h5
    have hn5 : ¬(height / depth > 5) := not_lt.mpr h5
    have hclamp : (if height / depth > 5 then (5.0 : ℝ) else height / depth)
        = height / depth := if_neg hn5
    rw [calculate_force_coefficient_freestanding_eq, calculate_force_coefficient_eq,
      hg, hclamp, if_neg hn5]
    split_ifs with h1 h2 h3
    · exact ⟨mul_comm _ _, rfl, rfl⟩
    · exact ⟨mul_comm _ _, rfl, rfl⟩
    · exact ⟨mul_comm _ _, rfl, rfl⟩
    · exfalso
      push_neg at h1 h2 h3
      linarith [h2 (h1 h3)]
  · intro h5
    have hp5 : height / depth > 5 := h5
    have hclamp : (if height / depth > 5 then (5.0 : ℝ) else height / depth)
        = (5.0 : ℝ) := if_pos hp5
    have hn1 : ¬(0.25 ≤ height / depth ∧ height / depth ≤ 1) := by
      rintro ⟨-, hcl⟩; linarith
    have hn2 : ¬(1 < height / depth ∧ height / depth ≤ 5) := by
      rintro ⟨-, hcl⟩; linarith
    have hn3 : ¬(height / depth < 0.25) := by linarith
    rw [calculate_force_coefficient_freestanding_eq, calculate_force_coefficient_eq,
      hg, hclamp, if_pos hp5, if_neg hn1, if_neg hn2, if_neg hn3,
      if_neg (show ¬((0.25 : ℝ) ≤ 5.0 ∧ (5.0 : ℝ) ≤ 1) by norm_num),
      if_pos (show (1 : ℝ) < 5.0 ∧ (5.0 : ℝ) ≤ 5 by norm_num)]
    exact ⟨rfl, rfl, rfl, rfl⟩

theorem C2_freestanding_ratio_witness :
    ((0:ℝ) < 2 ∧ (0:ℝ) < 1 ∧ (2:ℝ) / 1 ≤ 5) ∧
      (calculate_force_coefficient_freestanding 2 1 3).1
        = 1.1 * (calculate_force_coefficient 2 1).1 :=
  ⟨⟨by norm_num, by norm_num, by norm_num⟩,
    ((C2_freestanding_ratio 2 1 3 (by norm_num) (by norm_num)).1 (by norm_num)).1⟩

end

end StructuralDesign
